import Mathlib

/-!
EBYTE transceiver driver (src/EBYTE.cpp): shallow embedding.

The class `EBYTE` and the Arduino services it calls (pins, the serial
`Stream`, `millis`, `delay`) are modelled by one record, `Dev`, passed explicitly
through every method. Machine integers are naturals reduced with an explicit
modulus at every store into a sized variable.
-/

namespace EBYTE

set_option maxRecDepth 100000

/-! ## Machine integers -/

/-- Store into a `uint8_t`. -/
def u8 (n : Nat) : Nat := n % 256

/-- Store into a `uint16_t`. -/
def u16 (n : Nat) : Nat := n % 65536

/-- Store into an `unsigned long` (32 bits on the supported boards). -/
def u32 (n : Nat) : Nat := n % 4294967296

/-! ## Declarations of EBYTE.h -/

/-- Values of the macros and the array size that EBYTE.cpp takes from EBYTE.h.
The header is not part of the sources, so they are parameters of the model. -/
structure Header where
  /-- Macro `MODE_NORMAL` -/
  MODE_NORMAL : Nat
  /-- Macro `MODE_WAKEUP` -/
  MODE_WAKEUP : Nat
  /-- Macro `MODE_POWERDOWN` -/
  MODE_POWERDOWN : Nat
  /-- Macro `MODE_PROGRAM` -/
  MODE_PROGRAM : Nat
  /-- Macro `PIN_RECOVER`, milliseconds -/
  PIN_RECOVER : Nat
  /-- Macro `AUX_PIN_RECOVER`, milliseconds -/
  AUX_PIN_RECOVER : Nat
  /-- Value of `sizeof(_Params)` -/
  paramsLen : Nat
  /-- Width in bits of the unsigned member `_buf` -/
  bufBits : Nat
  /-- Whether the member `_AUX` is declared `int8_t` (otherwise `uint8_t` or a wider type) -/
  auxSigned : Bool

/-- A header instance used to evaluate the model on concrete inputs. -/
def sampleHeader : Header :=
  { MODE_NORMAL := 0, MODE_WAKEUP := 1, MODE_POWERDOWN := 2, MODE_PROGRAM := 3,
    PIN_RECOVER := 20, AUX_PIN_RECOVER := 20, paramsLen := 6, bufBits := 16,
    auxSigned := true }

/-! ## State -/

/-- One call of a board service, with what it returned where that matters. -/
inductive Event where
  /-- Call `delay(ms)` -/
  | sleep (ms : Nat)
  /-- Call `digitalWrite(pin, level)`; `true` stands for `HIGH` -/
  | pin (pin : Nat) (level : Bool)
  /-- Call `digitalRead(_AUX)` and the level read -/
  | aux (level : Bool)
  /-- Call `millis()` and the value read -/
  | clock (ms : Nat)
  /-- Call `_s->write(byte)` -/
  | sent (b : Nat)
  /-- Call `_s->write(buffer, size)` and the bytes the transport took -/
  | sentBytes (bs : List Nat)
  /-- Call `_s->available()` and the count returned -/
  | available (n : Nat)
  /-- Call `_s->read()` and the byte returned -/
  | read (b : Nat)
  /-- Call `_s->readBytes(buffer, n)` and the bytes obtained -/
  | readBytes (n : Nat) (got : List Nat)
  deriving DecidableEq

/-- The members of an `EBYTE` object together with the board it runs on.

Members keep their source names. Every parameter member is a `uint8_t` (the
type of its setter's argument and of its getter's result), `_Address` is a
`uint16_t`. The board part records the output level of every pin, the bytes
queued in the serial receive buffer (`rx`), the bytes the module delivers
while a blocking read waits (`incoming`), every byte handed to `write` (`tx`),
every `delay` (`slept`), the future readings of the status line (`auxIn`)
and of `millis` (`clock`), next reading at index 0, and every call of a board
service in the order the calls were made (`calls`). -/
structure Dev where
  _M0 : Nat
  _M1 : Nat
  _AUX : Int
  _Save : Nat
  _AddressHigh : Nat
  _AddressLow : Nat
  _Speed : Nat
  _Channel : Nat
  _Options : Nat
  _Address : Nat
  _ParityBit : Nat
  _UARTDataRate : Nat
  _AirDataRate : Nat
  _OptionTrans : Nat
  _OptionPullup : Nat
  _OptionWakeup : Nat
  _OptionFEC : Nat
  _OptionPower : Nat
  _Model : Nat
  _Version : Nat
  _Features : Nat
  _Params : Nat → Nat
  _buf : Nat
  pins : Nat → Bool
  rx : List Nat
  incoming : List Nat
  tx : List Nat
  slept : List Nat
  auxIn : Nat → Bool
  clock : Nat → Nat
  calls : List Event

/-- A freshly constructed object on an idle board: all members zero, pins 4, 5
and 6 wired to M0, M1 and AUX, nothing queued, status line reading high. -/
def idle : Dev :=
  { _M0 := 4, _M1 := 5, _AUX := 6, _Save := 0, _AddressHigh := 0, _AddressLow := 0,
    _Speed := 0, _Channel := 0, _Options := 0, _Address := 0, _ParityBit := 0,
    _UARTDataRate := 0, _AirDataRate := 0, _OptionTrans := 0, _OptionPullup := 0,
    _OptionWakeup := 0, _OptionFEC := 0, _OptionPower := 0, _Model := 0, _Version := 0,
    _Features := 0, _Params := fun _ => 0, _buf := 0, pins := fun _ => false, rx := [],
    incoming := [], tx := [], slept := [], auxIn := fun _ => true, clock := fun n => n,
    calls := [] }

/-- An object configured with address 0x1234, channel 0x17 and air rate 3 (speed
byte 0x03) on an idle board. -/
def configured : Dev :=
  { idle with _AddressHigh := 0x12, _AddressLow := 0x34, _Channel := 0x17, _Speed := 0x03,
              _AirDataRate := 3 }

/-- Conversion of a `uint8_t` value to the declared type of `_AUX`: values from
128 up become negative when that type is `int8_t`. -/
def toAUX (H : Header) (v : Nat) : Int :=
  if H.auxSigned = true ∧ 128 ≤ v then (v : Int) - 256 else (v : Int)

/-- Constructor `EBYTE::EBYTE` (lines 20-29). The three pin arguments are
`uint8_t`, so an argument written `-1` arrives as 255. -/
def EBYTE (H : Header) (PIN_M0 PIN_M1 PIN_AUX : Nat) (d : Dev) : Dev :=
  { d with _M0 := u8 PIN_M0, _M1 := u8 PIN_M1, _AUX := toAUX H (u8 PIN_AUX) }

/-! ## Packed bytes -/

/-- Method `EBYTE::BuildSpeedByte` (lines 453-456). -/
def BuildSpeedByte (d : Dev) : Dev :=
  { d with _Speed := u8 (((d._ParityBit &&& 0xFF) <<< 6) ||| ((d._UARTDataRate &&& 0xFF) <<< 3)
      ||| (d._AirDataRate &&& 0xFF)) }

/-- Method `EBYTE::BuildOptionByte` (lines 466-469). -/
def BuildOptionByte (d : Dev) : Dev :=
  { d with _Options := u8 (((d._OptionTrans &&& 0xFF) <<< 7) ||| ((d._OptionPullup &&& 0xFF) <<< 6)
      ||| ((d._OptionWakeup &&& 0xFF) <<< 3) ||| ((d._OptionFEC &&& 0xFF) <<< 2)
      ||| (d._OptionPower &&& 0b11)) }

/-- The unpacking block of `EBYTE::ReadParameters` (lines 572-588): the six
bytes of `_Params` are copied to their members and the sub-fields of the speed
and option bytes are derived. -/
def unpackParams (d : Dev) : Dev :=
  let d := { d with _Save := u8 (d._Params 0) }
  let d := { d with _AddressHigh := u8 (d._Params 1) }
  let d := { d with _AddressLow := u8 (d._Params 2) }
  let d := { d with _Speed := u8 (d._Params 3) }
  let d := { d with _Channel := u8 (d._Params 4) }
  let d := { d with _Options := u8 (d._Params 5) }
  let d := { d with _Address := u16 ((d._AddressHigh <<< 8) ||| d._AddressLow) }
  let d := { d with _ParityBit := u8 ((d._Speed &&& 0xC0) >>> 6) }
  let d := { d with _UARTDataRate := u8 ((d._Speed &&& 0x38) >>> 3) }
  let d := { d with _AirDataRate := u8 (d._Speed &&& 0x07) }
  let d := { d with _OptionTrans := u8 ((d._Options &&& 0x80) >>> 7) }
  let d := { d with _OptionPullup := u8 ((d._Options &&& 0x40) >>> 6) }
  let d := { d with _OptionWakeup := u8 ((d._Options &&& 0x38) >>> 3) }
  let d := { d with _OptionFEC := u8 ((d._Options &&& 0x07) >>> 2) }
  { d with _OptionPower := u8 (d._Options &&& 0x03) }

/-! ## Board services -/

/-- Call `delay(ms)`: the sleep is appended to the log. -/
def delay (ms : Nat) (d : Dev) : Dev :=
  { d with slept := d.slept ++ [ms], calls := d.calls ++ [Event.sleep ms] }

/-- Call `digitalWrite(pin, level)`; `true` stands for `HIGH`. -/
def digitalWrite (pin : Nat) (level : Bool) (d : Dev) : Dev :=
  { d with pins := fun p => if p = pin then level else d.pins p,
           calls := d.calls ++ [Event.pin pin level] }

/-- Call `digitalRead(_AUX)`: the next reading of the status line is consumed. -/
def digitalRead (d : Dev) : Bool × Dev :=
  (d.auxIn 0, { d with auxIn := fun n => d.auxIn (n + 1),
                       calls := d.calls ++ [Event.aux (d.auxIn 0)] })

/-- Call `millis()`: the next reading of the millisecond clock is consumed. -/
def millis (d : Dev) : Nat × Dev :=
  (u32 (d.clock 0), { d with clock := fun n => d.clock (n + 1),
                             calls := d.calls ++ [Event.clock (u32 (d.clock 0))] })

/-- Call `_s->write(byte)`: the byte is handed to the transport. -/
def write (b : Nat) (d : Dev) : Dev :=
  { d with tx := d.tx ++ [u8 b], calls := d.calls ++ [Event.sent (u8 b)] }

/-- The loop of `EBYTE::ClearBuffer`: one `read()` per queued byte, until
`available()` is zero. -/
def drain : List Nat → List Nat
  | [] => []
  | _ :: rest => drain rest

/-- The calls made by the loop of `EBYTE::ClearBuffer` on a given queue: each
turn tests `available()` and, while it is not zero, calls `read()`; the last
test returns 0. -/
def drainCalls : List Nat → List Event
  | [] => [Event.available 0]
  | b :: rest => Event.available (rest.length + 1) :: Event.read b :: drainCalls rest

/-- Call `_s->available()`: the number of bytes queued in the receive buffer. -/
def available (d : Dev) : Nat := d.rx.length

/-- Method `EBYTE::ClearBuffer` (lines 672-680). -/
def ClearBuffer (d : Dev) : Dev :=
  { d with rx := drain d.rx, calls := d.calls ++ drainCalls d.rx }

/-- Call `_s->readBytes((uint8_t*)&_Params, n)`: up to `n` bytes are taken, first
from the receive queue and then from what the module delivers while the read
blocks; byte `i` taken lands in `_Params[i]`. The count is returned. -/
def readBytes (n : Nat) (d : Dev) : Nat × Dev :=
  let got := (d.rx ++ d.incoming).take n
  (got.length,
   { d with _Params := fun i => if i < got.length then u8 (got.getD i 0) else d._Params i,
            rx := d.rx.drop n,
            incoming := d.incoming.drop (n - d.rx.length),
            calls := d.calls ++ [Event.readBytes n (got.map u8)] })

/-- Assignment `_Params[i] = v` -/
def setParam (i v : Nat) (d : Dev) : Dev :=
  { d with _Params := fun j => if j = i then u8 v else d._Params j }

/-! ## Mode control -/

/-- Method `EBYTE::SetMode` (lines 169-195); the argument is a `uint8_t`. -/
def SetMode (H : Header) (mode : Nat) (d : Dev) : Dev :=
  let mode := u8 mode
  let d := delay H.PIN_RECOVER d
  let d :=
    if mode = H.MODE_NORMAL then
      digitalWrite d._M1 false (digitalWrite d._M0 false d)
    else if mode = H.MODE_WAKEUP then
      digitalWrite d._M1 false (digitalWrite d._M0 true d)
    else if mode = H.MODE_POWERDOWN then
      digitalWrite d._M1 true (digitalWrite d._M0 false d)
    else if mode = H.MODE_PROGRAM then
      digitalWrite d._M1 true (digitalWrite d._M0 true d)
    else d
  delay H.PIN_RECOVER d

/-- The polling loop of `EBYTE::CompleteTask` (lines 142-147). Each unit of
fuel pays for one test of the status line; `none` means the fuel ran out with
the loop still running. -/
def pollAux (timeout t : Nat) : Nat → Dev → Option Dev
  | 0, _ => none
  | fuel + 1, d =>
    let r := digitalRead d
    if r.1 = true then some r.2
    else
      let m := millis r.2
      if timeout < u32 (m.1 + 4294967296 - t) then some m.2
      else pollAux timeout t fuel m.2

/-- Method `EBYTE::CompleteTask` (lines 129-160); the argument is an `unsigned long`. -/
def CompleteTask (H : Header) (timeout : Nat) (fuel : Nat) (d : Dev) : Option Dev :=
  let timeout := u32 timeout
  let m := millis d
  let t := if u32 (m.1 + timeout) = 0 then 0 else m.1
  let d := m.2
  let r :=
    if d._AUX ≠ -1 then pollAux timeout t fuel d
    else if timeout < 1000 then some (delay 1000 d)
    else some (delay timeout d)
  r.map (delay H.AUX_PIN_RECOVER)

/-- Call `_s->readBytes(buffer, n)` into a caller's buffer: the bytes taken, as
for `readBytes`, are returned with the state of the transport after the call. -/
def recvBytes (n : Nat) (d : Dev) : List Nat × Dev :=
  let got := (d.rx ++ d.incoming).take n
  (got.map u8, { d with rx := d.rx.drop n, incoming := d.incoming.drop (n - d.rx.length),
                        calls := d.calls ++ [Event.readBytes n (got.map u8)] })

/-- Method `EBYTE::SendStruct` (lines 93-103). The list `data` holds the bytes of
the structure, `size_` is a `uint16_t`, and `c` is the count that the
transport's `write` returns, of which the transport took the first `c` bytes.
The count is stored in `_buf`. -/
def SendStruct (H : Header) (data : List Nat) (size_ c : Nat) (fuel : Nat) (d : Dev) :
    Option (Bool × Dev) :=
  let size_ := u16 size_
  let d := { d with _buf := c % 2 ^ H.bufBits, tx := d.tx ++ (data.take c).map u8,
                    calls := d.calls ++ [Event.sentBytes ((data.take c).map u8)] }
  (CompleteTask H 1000 fuel d).map (fun e => (decide (e._buf = size_), e))

/-- Method `EBYTE::GetStruct` (lines 110-120). The bytes placed in the caller's
structure are returned with the result. -/
def GetStruct (H : Header) (size_ : Nat) (fuel : Nat) (d : Dev) :
    Option (Bool × List Nat × Dev) :=
  let size_ := u16 size_
  let r := recvBytes size_ d
  let d := { r.2 with _buf := r.1.length % 2 ^ H.bufBits }
  (CompleteTask H 1000 fuel d).map (fun e => (decide (e._buf = size_), r.1, e))

/-! ## Setters and getters -/

/-- Method `EBYTE::SetSpeed` (lines 221-223). -/
def SetSpeed (val : Nat) (d : Dev) : Dev := { d with _Speed := u8 val }

/-- Method `EBYTE::GetSpeed` (lines 228-230). -/
def GetSpeed (d : Dev) : Nat := d._Speed

/-- Method `EBYTE::SetOptions` (lines 235-237). -/
def SetOptions (val : Nat) (d : Dev) : Dev := { d with _Options := u8 val }

/-- Method `EBYTE::GetOptions` (lines 242-244). -/
def GetOptions (d : Dev) : Nat := d._Options

/-- Method `EBYTE::SetAddressH` (lines 249-251). -/
def SetAddressH (val : Nat) (d : Dev) : Dev := { d with _AddressHigh := u8 val }

/-- Method `EBYTE::GetAddressH` (lines 256-258). -/
def GetAddressH (d : Dev) : Nat := d._AddressHigh

/-- Method `EBYTE::SetAddressL` (lines 263-265). -/
def SetAddressL (val : Nat) (d : Dev) : Dev := { d with _AddressLow := u8 val }

/-- Method `EBYTE::GetAddressL` (lines 270-272). -/
def GetAddressL (d : Dev) : Nat := d._AddressLow

/-- Method `EBYTE::SetChannel` (lines 277-279). -/
def SetChannel (val : Nat) (d : Dev) : Dev := { d with _Channel := u8 val }

/-- Method `EBYTE::GetChannel` (lines 284-286). -/
def GetChannel (d : Dev) : Nat := d._Channel

/-- Method `EBYTE::SetAirDataRate` (lines 291-297). -/
def SetAirDataRate (val : Nat) (d : Dev) : Dev :=
  BuildSpeedByte { d with _AirDataRate := u8 val }

/-- Method `EBYTE::SetParityBit` (lines 309-315). -/
def SetParityBit (val : Nat) (d : Dev) : Dev :=
  BuildSpeedByte { d with _ParityBit := u8 val }

/-- Method `EBYTE::SetUARTBaudRate` (lines 432-438). -/
def SetUARTBaudRate (val : Nat) (d : Dev) : Dev :=
  BuildSpeedByte { d with _UARTDataRate := u8 val }

/-- Method `EBYTE::SetTransmissionMode` (lines 327-333). -/
def SetTransmissionMode (val : Nat) (d : Dev) : Dev :=
  BuildOptionByte { d with _OptionTrans := u8 val }

/-- Method `EBYTE::SetPullupMode` (lines 345-351). -/
def SetPullupMode (val : Nat) (d : Dev) : Dev :=
  BuildOptionByte { d with _OptionPullup := u8 val }

/-- Method `EBYTE::SetWORTIming` (lines 363-369). -/
def SetWORTIming (val : Nat) (d : Dev) : Dev :=
  BuildOptionByte { d with _OptionWakeup := u8 val }

/-- Method `EBYTE::SetFECMode` (lines 381-387). -/
def SetFECMode (val : Nat) (d : Dev) : Dev :=
  BuildOptionByte { d with _OptionFEC := u8 val }

/-- Method `EBYTE::SetTransmitPower` (lines 399-405). -/
def SetTransmitPower (val : Nat) (d : Dev) : Dev :=
  BuildOptionByte { d with _OptionPower := u8 val }

/-- Method `EBYTE::SetAddress` (lines 417-420); the argument is a `uint16_t`. -/
def SetAddress (Val : Nat) (d : Dev) : Dev :=
  let Val := u16 Val
  let d := { d with _AddressHigh := u8 ((Val &&& 0xFFFF) >>> 8) }
  { d with _AddressLow := u8 (Val &&& 0xFF) }

/-- Method `EBYTE::GetAddress` (lines 425-427); the result is a `uint16_t`. -/
def GetAddress (d : Dev) : Nat :=
  u16 ((d._AddressHigh <<< 8) ||| d._AddressLow)

/-! ## Module operations -/

/-- The write block of `EBYTE::SaveParameters` (lines 486-495): the six bytes
are written in order, then the fixed 50 ms sleep. -/
def writeParams (retention : Nat) (d : Dev) : Dev :=
  let d := write retention d
  let d := write d._AddressHigh d
  let d := write d._AddressLow d
  let d := write d._Speed d
  let d := write d._Channel d
  let d := write d._Options d
  delay 50 d

/-- The send block of `EBYTE::SaveParameters` (lines 479-495): Program mode
is entered, the receive queue is cleared and the six bytes are written. -/
def sendParams (H : Header) (retention : Nat) (d : Dev) : Dev :=
  let d := SetMode H H.MODE_PROGRAM d
  let d := ClearBuffer d
  let d := delay 5 d
  let d := write retention d
  let d := write d._AddressHigh d
  let d := write d._AddressLow d
  let d := write d._Speed d
  let d := write d._Channel d
  let d := write d._Options d
  delay 50 d

/-- Method `EBYTE::SaveParameters` (lines 478-500): send, wait for completion,
return to Normal mode. The fuel is that of the wait in `CompleteTask`. -/
def SaveParameters (H : Header) (retention : Nat) (fuel : Nat) (d : Dev) : Option Dev :=
  (CompleteTask H 4000 fuel (sendParams H retention d)).map (SetMode H H.MODE_NORMAL)

/-- The request block of `EBYTE::ReadParameters` (lines 546-569): the buffer
`_Params` is zeroed, Program mode is entered, the receive queue is cleared, the
command is sent and `sizeof(_Params)` bytes, cast to `uint8_t`, are asked of
the transport. -/
def requestParams (H : Header) (d : Dev) : Dev :=
  let d := setParam 0 0 d
  let d := setParam 1 0 d
  let d := setParam 2 0 d
  let d := setParam 3 0 d
  let d := setParam 4 0 d
  let d := setParam 5 0 d
  let d := SetMode H H.MODE_PROGRAM d
  let d := ClearBuffer d
  let d := delay 5 d
  let d := write 0xC1 d
  let d := write 0xC1 d
  let d := write 0xC1 d
  let d := delay 5 d
  let d := (readBytes (u8 H.paramsLen) d).2
  delay 5 d

/-- Method `EBYTE::ReadParameters` (lines 545-599): request, unpack, return to
Normal mode, test the marker. -/
def ReadParameters (H : Header) (d : Dev) : Bool × Dev :=
  let d := requestParams H d
  let d := unpackParams d
  let d := SetMode H H.MODE_NORMAL d
  if 0xC0 ≠ d._Params 0 then (false, d) else (true, d)

/-- The request block of `EBYTE::ReadModelData` (lines 605-625). -/
def requestModel (H : Header) (d : Dev) : Dev :=
  let d := setParam 0 0 d
  let d := setParam 1 0 d
  let d := setParam 2 0 d
  let d := setParam 3 0 d
  let d := SetMode H H.MODE_PROGRAM d
  let d := ClearBuffer d
  let d := write 0xC3 d
  let d := write 0xC3 d
  let d := write 0xC3 d
  let d := delay 5 d
  let d := (readBytes (u8 H.paramsLen) d).2
  delay 5 d

/-- The unpacking block of `EBYTE::ReadModelData` (lines 627-631). -/
def unpackModel (d : Dev) : Dev :=
  let d := { d with _Save := u8 (d._Params 0) }
  let d := { d with _Model := u8 (d._Params 1) }
  let d := { d with _Version := u8 (d._Params 2) }
  { d with _Features := u8 (d._Params 3) }

/-- Method `EBYTE::ReadModelData` (lines 604-642): request, unpack, return to Normal
mode, test the marker. -/
def ReadModelData (H : Header) (d : Dev) : Bool × Dev :=
  let d := requestModel H d
  let d := unpackModel d
  let d := SetMode H H.MODE_NORMAL d
  if 0xC3 ≠ d._Params 0 then (false, d) else (true, d)

/-- Method `EBYTE::GetModel` (lines 648-650). -/
def GetModel (d : Dev) : Nat := d._Model

/-- Method `EBYTE::GetVersion` (lines 656-658). -/
def GetVersion (d : Dev) : Nat := d._Version

/-- Method `EBYTE::GetFeatures` (lines 664-666). -/
def GetFeatures (d : Dev) : Nat := d._Features

/-! ## Predicates used by the statements -/

/-- Both mode-select lines are low: the module is in Normal mode. -/
def linesLow (d : Dev) : Prop :=
  d.pins d._M0 = false ∧ d.pins d._M1 = false

/-- The mode-select lines M0 and M1 are at the given levels; `true` is high. -/
def linesAre (m0 m1 : Bool) (d : Dev) : Prop :=
  d.pins d._M0 = m0 ∧ d.pins d._M1 = m1

/-- The packed bytes agree with their sub-fields: each equals what
`BuildSpeedByte` / `BuildOptionByte` computes from the current sub-fields. -/
def Consistent (d : Dev) : Prop :=
  d._Speed = (BuildSpeedByte d)._Speed ∧ d._Options = (BuildOptionByte d)._Options

/-- The wait of `CompleteTask timeout` entered in state `d` is over at its
poll number `n` (from 0) at the latest: no status line is configured, or the
status line reads high at that poll, or the clock reading taken at that poll
is more than `timeout` past the start value that `CompleteTask` computed from
its first clock reading. -/
def waitEnds (timeout : Nat) (d : Dev) (n : Nat) : Prop :=
  d._AUX = -1 ∨ d.auxIn n = true ∨
    u32 timeout < u32 (u32 (d.clock (n + 1)) + 4294967296
      - (if u32 (u32 (d.clock 0) + u32 timeout) = 0 then 0 else u32 (d.clock 0)))

/-- The four mode macros are pairwise different values of a `uint8_t`. -/
def modesDistinct (H : Header) : Prop :=
  H.MODE_NORMAL < 256 ∧ H.MODE_WAKEUP < 256 ∧ H.MODE_POWERDOWN < 256 ∧ H.MODE_PROGRAM < 256 ∧
  H.MODE_NORMAL ≠ H.MODE_WAKEUP ∧ H.MODE_NORMAL ≠ H.MODE_POWERDOWN ∧
  H.MODE_NORMAL ≠ H.MODE_PROGRAM ∧ H.MODE_WAKEUP ≠ H.MODE_POWERDOWN ∧
  H.MODE_WAKEUP ≠ H.MODE_PROGRAM ∧ H.MODE_POWERDOWN ≠ H.MODE_PROGRAM

/-- Two states hold the same stored parameters: address bytes, channel, packed
bytes, their sub-fields, the cached address and the model data. -/
def sameParams (a b : Dev) : Prop :=
  a._Save = b._Save ∧ a._AddressHigh = b._AddressHigh ∧ a._AddressLow = b._AddressLow ∧
  a._Speed = b._Speed ∧ a._Channel = b._Channel ∧ a._Options = b._Options ∧
  a._Address = b._Address ∧ a._ParityBit = b._ParityBit ∧
  a._UARTDataRate = b._UARTDataRate ∧ a._AirDataRate = b._AirDataRate ∧
  a._OptionTrans = b._OptionTrans ∧ a._OptionPullup = b._OptionPullup ∧
  a._OptionWakeup = b._OptionWakeup ∧ a._OptionFEC = b._OptionFEC ∧
  a._OptionPower = b._OptionPower ∧ a._Model = b._Model ∧ a._Version = b._Version ∧
  a._Features = b._Features

/-- Two states hold the same speed byte and speed sub-fields. -/
def sameSpeed (a b : Dev) : Prop :=
  a._Speed = b._Speed ∧ a._ParityBit = b._ParityBit ∧ a._UARTDataRate = b._UARTDataRate ∧
  a._AirDataRate = b._AirDataRate

/-- Two states hold the same options byte and option sub-fields. -/
def sameOptions (a b : Dev) : Prop :=
  a._Options = b._Options ∧ a._OptionTrans = b._OptionTrans ∧
  a._OptionPullup = b._OptionPullup ∧ a._OptionWakeup = b._OptionWakeup ∧
  a._OptionFEC = b._OptionFEC ∧ a._OptionPower = b._OptionPower

/-- Two states hold the same address bytes, cached address and channel. -/
def sameAddress (a b : Dev) : Prop :=
  a._AddressHigh = b._AddressHigh ∧ a._AddressLow = b._AddressLow ∧ a._Address = b._Address ∧
  a._Channel = b._Channel

/-- The packed bytes are bytes and every sub-field is what the unpacking block
of `ReadParameters` derives from its packed byte. -/
def Decoded (e : Dev) : Prop :=
  e._Speed < 256 ∧ e._Options < 256 ∧
  e._ParityBit = u8 ((e._Speed &&& 0xC0) >>> 6) ∧
  e._UARTDataRate = u8 ((e._Speed &&& 0x38) >>> 3) ∧
  e._AirDataRate = u8 (e._Speed &&& 0x07) ∧
  e._OptionTrans = u8 ((e._Options &&& 0x80) >>> 7) ∧
  e._OptionPullup = u8 ((e._Options &&& 0x40) >>> 6) ∧
  e._OptionWakeup = u8 ((e._Options &&& 0x38) >>> 3) ∧
  e._OptionFEC = u8 ((e._Options &&& 0x07) >>> 2) ∧
  e._OptionPower = u8 (e._Options &&& 0x03)

/-- Two states are equal apart from the record of board calls. -/
def sameButCalls (a b : Dev) : Prop :=
  { a with calls := [] } = { b with calls := [] }

/-- Two states agree on the status-line configuration and on the future
readings of the status line and of the clock. -/
def sameEnv (a b : Dev) : Prop :=
  a._AUX = b._AUX ∧ a.auxIn = b.auxIn ∧ a.clock = b.clock

/-! ## Codec arithmetic on bytes -/

/-- Packing the three speed sub-fields unpacked from a byte gives the byte back. -/
theorem speed_unpack_pack_byte : ∀ b, b < 256 →
    u8 (((u8 ((b &&& 0xC0) >>> 6) &&& 0xFF) <<< 6) ||| ((u8 ((b &&& 0x38) >>> 3) &&& 0xFF) <<< 3)
      ||| (u8 (b &&& 0x07) &&& 0xFF)) = b := by
  decide

/-- Packing the five option sub-fields unpacked from a byte gives the byte back. -/
theorem option_unpack_pack_byte : ∀ b, b < 256 →
    u8 (((u8 ((b &&& 0x80) >>> 7) &&& 0xFF) <<< 7) ||| ((u8 ((b &&& 0x40) >>> 6) &&& 0xFF) <<< 6)
      ||| ((u8 ((b &&& 0x38) >>> 3) &&& 0xFF) <<< 3) ||| ((u8 ((b &&& 0x07) >>> 2) &&& 0xFF) <<< 2)
      ||| (u8 (b &&& 0x03) &&& 0b11)) = b := by
  decide

/-- Unpacking the byte packed from in-width speed sub-fields gives them back. -/
theorem speed_pack_unpack_fields (p u a : Nat) (hp : p < 4) (hu : u < 8) (ha : a < 8) :
    u8 ((u8 (u8 (((p &&& 0xFF) <<< 6) ||| ((u &&& 0xFF) <<< 3) ||| (a &&& 0xFF))) &&& 0xC0) >>> 6) = p ∧
    u8 ((u8 (u8 (((p &&& 0xFF) <<< 6) ||| ((u &&& 0xFF) <<< 3) ||| (a &&& 0xFF))) &&& 0x38) >>> 3) = u ∧
    u8 (u8 (u8 (((p &&& 0xFF) <<< 6) ||| ((u &&& 0xFF) <<< 3) ||| (a &&& 0xFF))) &&& 0x07) = a := by
  interval_cases p <;> interval_cases u <;> interval_cases a <;> decide

/-- Unpacking the byte packed from option sub-fields gives them back when the
FEC field is a single bit. -/
theorem option_pack_unpack_fields (t pu w f pw : Nat) (ht : t < 2) (hpu : pu < 2) (hw : w < 8)
    (hf : f < 2) (hpw : pw < 4) :
    u8 ((u8 (u8 (((t &&& 0xFF) <<< 7) ||| ((pu &&& 0xFF) <<< 6) ||| ((w &&& 0xFF) <<< 3)
      ||| ((f &&& 0xFF) <<< 2) ||| (pw &&& 0b11))) &&& 0x80) >>> 7) = t ∧
    u8 ((u8 (u8 (((t &&& 0xFF) <<< 7) ||| ((pu &&& 0xFF) <<< 6) ||| ((w &&& 0xFF) <<< 3)
      ||| ((f &&& 0xFF) <<< 2) ||| (pw &&& 0b11))) &&& 0x40) >>> 6) = pu ∧
    u8 ((u8 (u8 (((t &&& 0xFF) <<< 7) ||| ((pu &&& 0xFF) <<< 6) ||| ((w &&& 0xFF) <<< 3)
      ||| ((f &&& 0xFF) <<< 2) ||| (pw &&& 0b11))) &&& 0x38) >>> 3) = w ∧
    u8 ((u8 (u8 (((t &&& 0xFF) <<< 7) ||| ((pu &&& 0xFF) <<< 6) ||| ((w &&& 0xFF) <<< 3)
      ||| ((f &&& 0xFF) <<< 2) ||| (pw &&& 0b11))) &&& 0x07) >>> 2) = f ∧
    u8 (u8 (u8 (((t &&& 0xFF) <<< 7) ||| ((pu &&& 0xFF) <<< 6) ||| ((w &&& 0xFF) <<< 3)
      ||| ((f &&& 0xFF) <<< 2) ||| (pw &&& 0b11))) &&& 0x03) = pw := by
  interval_cases t <;> interval_cases pu <;> interval_cases f <;> interval_cases pw <;>
    interval_cases w <;> decide

/-! ## Round trips of the packed bytes -/

/-- C1. For every byte `b` received as the speed byte (`_Params[3] = b`), the
unpacking block of `ReadParameters` derives parity = (b & 0xC0) >> 6,
uartRate = (b & 0x38) >> 3, airRate = b & 0x07, and `BuildSpeedByte` run on
any state `e` that holds these three sub-fields, whatever its speed byte was
before, stores exactly `b` in the speed byte. -/
theorem C1_speed_byte_roundtrip (d e : Dev) (b : Nat) (hb : b < 256) (hd : d._Params 3 = b)
    (hp : e._ParityBit = (unpackParams d)._ParityBit)
    (hu : e._UARTDataRate = (unpackParams d)._UARTDataRate)
    (ha : e._AirDataRate = (unpackParams d)._AirDataRate) :
    (unpackParams d)._ParityBit = (b &&& 0xC0) >>> 6 ∧
    (unpackParams d)._UARTDataRate = (b &&& 0x38) >>> 3 ∧
    (unpackParams d)._AirDataRate = b &&& 0x07 ∧
    (BuildSpeedByte (unpackParams d))._Speed = b ∧
    (BuildSpeedByte e)._Speed = b := by
  subst hd
  have hu8 : u8 (d._Params 3) = d._Params 3 := Nat.mod_eq_of_lt hb
  have key := speed_unpack_pack_byte (d._Params 3) hb
  have hm : ∀ b, b < 256 → u8 ((b &&& 0xC0) >>> 6) = (b &&& 0xC0) >>> 6 ∧
      u8 ((b &&& 0x38) >>> 3) = (b &&& 0x38) >>> 3 ∧ u8 (b &&& 0x07) = b &&& 0x07 := by
    decide
  obtain ⟨h1, h2, h3⟩ := hm (d._Params 3) hb
  have he : (BuildSpeedByte e)._Speed = d._Params 3 := by
    simp only [BuildSpeedByte, hp, hu, ha, unpackParams, hu8]
    exact key
  simp only [unpackParams, BuildSpeedByte, hu8] at he ⊢
  exact ⟨h1, h2, h3, key, he⟩

/-- C1, evaluated at the byte 0xA7: the state that packs the sub-fields 2, 4, 7
held 0x55 as speed byte before. -/
theorem C1_speed_byte_roundtrip_witness :
    (unpackParams { idle with _Params := fun _ => 0xA7 })._ParityBit = (0xA7 &&& 0xC0) >>> 6 ∧
    (unpackParams { idle with _Params := fun _ => 0xA7 })._UARTDataRate = (0xA7 &&& 0x38) >>> 3 ∧
    (unpackParams { idle with _Params := fun _ => 0xA7 })._AirDataRate = 0xA7 &&& 0x07 ∧
    (BuildSpeedByte (unpackParams { idle with _Params := fun _ => 0xA7 }))._Speed = 0xA7 ∧
    (BuildSpeedByte { idle with _ParityBit := 2, _UARTDataRate := 4, _AirDataRate := 7,
                                _Speed := 0x55 })._Speed = 0xA7 :=
  C1_speed_byte_roundtrip { idle with _Params := fun _ => 0xA7 }
    { idle with _ParityBit := 2, _UARTDataRate := 4, _AirDataRate := 7, _Speed := 0x55 }
    0xA7 (by decide) rfl (by decide) (by decide) (by decide)

/-- C2. For every byte `b` received as the options byte (`_Params[5] = b`),
the unpacking block of `ReadParameters` derives transmissionMode =
(b & 0x80) >> 7, pullup = (b & 0x40) >> 6, wakeupTiming = (b & 0x38) >> 3,
fec = (b & 0x07) >> 2, transmitPower = b & 0x03, and `BuildOptionByte` run on
any state `e` that holds these five sub-fields, whatever its options byte was
before, stores exactly `b` in the options byte. -/
theorem C2_option_byte_roundtrip (d e : Dev) (b : Nat) (hb : b < 256) (hd : d._Params 5 = b)
    (ht : e._OptionTrans = (unpackParams d)._OptionTrans)
    (hpu : e._OptionPullup = (unpackParams d)._OptionPullup)
    (hw : e._OptionWakeup = (unpackParams d)._OptionWakeup)
    (hf : e._OptionFEC = (unpackParams d)._OptionFEC)
    (hpw : e._OptionPower = (unpackParams d)._OptionPower) :
    (unpackParams d)._OptionTrans = (b &&& 0x80) >>> 7 ∧
    (unpackParams d)._OptionPullup = (b &&& 0x40) >>> 6 ∧
    (unpackParams d)._OptionWakeup = (b &&& 0x38) >>> 3 ∧
    (unpackParams d)._OptionFEC = (b &&& 0x07) >>> 2 ∧
    (unpackParams d)._OptionPower = b &&& 0x03 ∧
    (BuildOptionByte (unpackParams d))._Options = b ∧
    (BuildOptionByte e)._Options = b := by
  subst hd
  have hu8 : u8 (d._Params 5) = d._Params 5 := Nat.mod_eq_of_lt hb
  have key := option_unpack_pack_byte (d._Params 5) hb
  have hm : ∀ b, b < 256 → u8 ((b &&& 0x80) >>> 7) = (b &&& 0x80) >>> 7 ∧
      u8 ((b &&& 0x40) >>> 6) = (b &&& 0x40) >>> 6 ∧
      u8 ((b &&& 0x38) >>> 3) = (b &&& 0x38) >>> 3 ∧
      u8 ((b &&& 0x07) >>> 2) = (b &&& 0x07) >>> 2 ∧ u8 (b &&& 0x03) = b &&& 0x03 := by
    decide
  obtain ⟨h1, h2, h3, h4, h5⟩ := hm (d._Params 5) hb
  have he : (BuildOptionByte e)._Options = d._Params 5 := by
    simp only [BuildOptionByte, ht, hpu, hw, hf, hpw, unpackParams, hu8]
    exact key
  simp only [unpackParams, BuildOptionByte, hu8] at he ⊢
  exact ⟨h1, h2, h3, h4, h5, key, he⟩

/-- C2, evaluated at the byte 0xC7: the state that packs the sub-fields 1, 1,
0, 1, 3 held 0x38 as options byte before. -/
theorem C2_option_byte_roundtrip_witness :
    (unpackParams { idle with _Params := fun _ => 0xC7 })._OptionTrans = (0xC7 &&& 0x80) >>> 7 ∧
    (unpackParams { idle with _Params := fun _ => 0xC7 })._OptionPullup = (0xC7 &&& 0x40) >>> 6 ∧
    (unpackParams { idle with _Params := fun _ => 0xC7 })._OptionWakeup = (0xC7 &&& 0x38) >>> 3 ∧
    (unpackParams { idle with _Params := fun _ => 0xC7 })._OptionFEC = (0xC7 &&& 0x07) >>> 2 ∧
    (unpackParams { idle with _Params := fun _ => 0xC7 })._OptionPower = 0xC7 &&& 0x03 ∧
    (BuildOptionByte (unpackParams { idle with _Params := fun _ => 0xC7 }))._Options = 0xC7 ∧
    (BuildOptionByte { idle with _OptionTrans := 1, _OptionPullup := 1, _OptionWakeup := 0,
                                 _OptionFEC := 1, _OptionPower := 3,
                                 _Options := 0x38 })._Options = 0xC7 :=
  C2_option_byte_roundtrip { idle with _Params := fun _ => 0xC7 }
    { idle with _OptionTrans := 1, _OptionPullup := 1, _OptionWakeup := 0, _OptionFEC := 1,
                _OptionPower := 3, _Options := 0x38 }
    0xC7 (by decide) rfl (by decide) (by decide) (by decide) (by decide) (by decide)

/-- C3. For parity < 4, uartRate < 8 and airRate < 8 held by a device `d`, the
byte that `BuildSpeedByte` packs, once received as `_Params[3]` by any device
`e` and unpacked by `ReadParameters`, gives back the three sub-fields. -/
theorem C3_speed_fields_roundtrip (d e : Dev) (hp : d._ParityBit < 4)
    (hu : d._UARTDataRate < 8) (ha : d._AirDataRate < 8)
    (he : e._Params 3 = (BuildSpeedByte d)._Speed) :
    (unpackParams e)._ParityBit = d._ParityBit ∧
    (unpackParams e)._UARTDataRate = d._UARTDataRate ∧
    (unpackParams e)._AirDataRate = d._AirDataRate := by
  have key := speed_pack_unpack_fields _ _ _ hp hu ha
  simp only [unpackParams, he, BuildSpeedByte]
  exact key

/-- C3, evaluated at parity 2, uartRate 5, airRate 3. -/
theorem C3_speed_fields_roundtrip_witness :
    (unpackParams { idle with _Params := fun _ => 0xAB })._ParityBit = 2 ∧
    (unpackParams { idle with _Params := fun _ => 0xAB })._UARTDataRate = 5 ∧
    (unpackParams { idle with _Params := fun _ => 0xAB })._AirDataRate = 3 :=
  C3_speed_fields_roundtrip { idle with _ParityBit := 2, _UARTDataRate := 5, _AirDataRate := 3 }
    { idle with _Params := fun _ => 0xAB } (by decide) (by decide) (by decide) (by decide)

/-- C4 as stated fails: with fecMode = 2, inside the two-bit width the claim
documents, and every other sub-field zero, `BuildOptionByte` packs 0x08, which
`ReadParameters` unpacks as wakeupTiming = 1 and fecMode = 0. -/
theorem C4_fec_two_bits_counterexample :
    ({ idle with _OptionFEC := 2 } : Dev)._OptionTrans < 2 ∧
    ({ idle with _OptionFEC := 2 } : Dev)._OptionPullup < 2 ∧
    ({ idle with _OptionFEC := 2 } : Dev)._OptionWakeup < 8 ∧
    ({ idle with _OptionFEC := 2 } : Dev)._OptionFEC < 4 ∧
    ({ idle with _OptionFEC := 2 } : Dev)._OptionPower < 4 ∧
    (BuildOptionByte { idle with _OptionFEC := 2 })._Options = 0x08 ∧
    (unpackParams { idle with _Params := fun _ => 0x08 })._OptionWakeup = 1 ∧
    (unpackParams { idle with _Params := fun _ => 0x08 })._OptionFEC = 0 ∧
    ¬ ((unpackParams { idle with _Params :=
          fun _ => (BuildOptionByte { idle with _OptionFEC := 2 })._Options })._OptionFEC
        = ({ idle with _OptionFEC := 2 } : Dev)._OptionFEC) := by
  decide

/-- C4, amended. For transmissionMode < 2, pullupMode < 2, wakeupTiming < 8,
fecMode < 2 (the single bit 2 that pack and unpack both use) and
transmitPower < 4 held by a device `d`, the byte that `BuildOptionByte` packs,
once received as `_Params[5]` by any device `e` and unpacked by
`ReadParameters`, gives back the five sub-fields. -/
theorem C4_option_fields_roundtrip (d e : Dev) (ht : d._OptionTrans < 2)
    (hpu : d._OptionPullup < 2) (hw : d._OptionWakeup < 8) (hf : d._OptionFEC < 2)
    (hpw : d._OptionPower < 4) (he : e._Params 5 = (BuildOptionByte d)._Options) :
    (unpackParams e)._OptionTrans = d._OptionTrans ∧
    (unpackParams e)._OptionPullup = d._OptionPullup ∧
    (unpackParams e)._OptionWakeup = d._OptionWakeup ∧
    (unpackParams e)._OptionFEC = d._OptionFEC ∧
    (unpackParams e)._OptionPower = d._OptionPower := by
  have key := option_pack_unpack_fields _ _ _ _ _ ht hpu hw hf hpw
  simp only [unpackParams, he, BuildOptionByte]
  exact key

/-- C4 amended, evaluated at (1, 0, 5, 1, 2), packed as 0xAE. -/
theorem C4_option_fields_roundtrip_witness :
    (unpackParams { idle with _Params := fun _ => 0xAE })._OptionTrans = 1 ∧
    (unpackParams { idle with _Params := fun _ => 0xAE })._OptionPullup = 0 ∧
    (unpackParams { idle with _Params := fun _ => 0xAE })._OptionWakeup = 5 ∧
    (unpackParams { idle with _Params := fun _ => 0xAE })._OptionFEC = 1 ∧
    (unpackParams { idle with _Params := fun _ => 0xAE })._OptionPower = 2 :=
  C4_option_fields_roundtrip
    { idle with _OptionTrans := 1, _OptionWakeup := 5, _OptionFEC := 1, _OptionPower := 2 }
    { idle with _Params := fun _ => 0xAE } (by decide) (by decide) (by decide) (by decide)
    (by decide) (by decide)

/-- C5 at its failing input. `SetAirDataRate(0xFF)` on a device whose parity
and UART rate are 0 makes `BuildSpeedByte` store 0xFF: the mask `& 0xFF` keeps
all eight bits of the air rate, which overwrite the parity and UART bits. The
claimed value `((0 & 3) << 6) | ((0 & 7) << 3) | (0xFF & 7)` is 0x07. -/
theorem C5_air_rate_not_masked :
    (SetAirDataRate 0xFF idle)._ParityBit = 0 ∧
    (SetAirDataRate 0xFF idle)._UARTDataRate = 0 ∧
    (SetAirDataRate 0xFF idle)._AirDataRate = 0xFF ∧
    (SetAirDataRate 0xFF idle)._Speed = 0xFF ∧
    (((0 &&& 0x03) <<< 6) ||| ((0 &&& 0x07) <<< 3) ||| (0xFF &&& 0x07)) = 0x07 ∧
    ((unpackParams { idle with _Params :=
        fun _ => (SetAirDataRate 0xFF idle)._Speed })._ParityBit = 3) := by
  decide

/-! ## Address -/

/-- A left shift by 8 joined with a byte is a sum. -/
theorem shl8_or (a b : Nat) (hb : b < 256) : (a <<< 8) ||| b = a * 256 + b := by
  have := Nat.mul_add_lt_is_or (show b < 2 ^ 8 by omega) a
  rw [Nat.shiftLeft_eq, Nat.mul_comm a (2 ^ 8), ← this, Nat.mul_comm]

/-- Masking with 0xFF is the remainder modulo 256. -/
theorem and_ff (v : Nat) : v &&& 0xFF = v % 256 := by
  have := Nat.and_pow_two_sub_one_eq_mod v 8
  norm_num at this
  exact this

/-- Masking with 0xFFFF is the remainder modulo 65536. -/
theorem and_ffff (v : Nat) : v &&& 0xFFFF = v % 65536 := by
  have := Nat.and_pow_two_sub_one_eq_mod v 16
  norm_num at this
  exact this

/-- A right shift by 8 is the quotient by 256. -/
theorem shr8 (v : Nat) : v >>> 8 = v / 256 := by
  rw [Nat.shiftRight_eq_div_pow]

/-- Splitting a 16-bit value as `SetAddress` does and joining it as `GetAddress` does. -/
theorem addr_split (v : Nat) (hv : v < 65536) :
    u8 ((u16 v &&& 0xFFFF) >>> 8) = v >>> 8 ∧ u8 (u16 v &&& 0xFF) = v &&& 0xFF ∧
    u16 ((u8 ((u16 v &&& 0xFFFF) >>> 8) <<< 8) ||| u8 (u16 v &&& 0xFF)) = v := by
  have h0 : u16 v = v := Nat.mod_eq_of_lt hv
  have hlow : u8 (v % 256) < 256 := Nat.mod_lt _ (by norm_num)
  rw [h0, and_ffff, and_ff, shr8, shr8, shl8_or _ _ hlow]
  unfold u8 u16
  refine ⟨?_, ?_, ?_⟩ <;> omega

/-- Joining two bytes as `GetAddress` does. -/
theorem addr_join (h l : Nat) (hh : h < 256) (hl : l < 256) :
    u16 ((u8 h <<< 8) ||| u8 l) = (h <<< 8) ||| l := by
  rw [show u8 h = h from Nat.mod_eq_of_lt hh, show u8 l = l from Nat.mod_eq_of_lt hl,
    shl8_or _ _ hl]
  unfold u16; omega

/-- C6. For every 16-bit `v`, `SetAddress(v)` stores `_AddressHigh = v >> 8`
and `_AddressLow = v & 0xFF` and `GetAddress()` then returns `v`; for every
pair of bytes `h`, `l`, after `SetAddressH(h); SetAddressL(l)` the result of
`GetAddress()` is `(h << 8) | l`. -/
theorem C6_address_roundtrip (d : Dev) (v h l : Nat) (hv : v < 65536) (hh : h < 256)
    (hl : l < 256) :
    (SetAddress v d)._AddressHigh = v >>> 8 ∧
    (SetAddress v d)._AddressLow = v &&& 0xFF ∧
    GetAddress (SetAddress v d) = v ∧
    GetAddress (SetAddressL l (SetAddressH h d)) = (h <<< 8) ||| l := by
  obtain ⟨h1, h2, h3⟩ := addr_split v hv
  refine ⟨h1, h2, h3, ?_⟩
  simp only [GetAddress, SetAddressL, SetAddressH]
  exact addr_join h l hh hl

/-- C6, evaluated at the address 0x1234 and the bytes 0xAB, 0xCD. -/
theorem C6_address_roundtrip_witness :
    (SetAddress 0x1234 idle)._AddressHigh = 0x1234 >>> 8 ∧
    (SetAddress 0x1234 idle)._AddressLow = 0x1234 &&& 0xFF ∧
    GetAddress (SetAddress 0x1234 idle) = 0x1234 ∧
    GetAddress (SetAddressL 0xCD (SetAddressH 0xAB idle)) = (0xAB <<< 8) ||| 0xCD :=
  C6_address_roundtrip idle 0x1234 0xAB 0xCD (by decide) (by decide) (by decide)

/-! ## What the module operations leave behind -/

/-- Function `SetMode` changes the pin levels and the sleep log only. -/
theorem SetMode_eq (H : Header) (m : Nat) (d : Dev) :
    ∃ p s c, SetMode H m d = { d with pins := p, slept := s, calls := c } := by
  unfold SetMode
  simp only [delay, digitalWrite]
  split_ifs <;> exact ⟨_, _, _, rfl⟩

/-- Function `SetMode(MODE_NORMAL)` leaves both mode-select lines low. -/
theorem SetMode_normal_low (H : Header) (hN : H.MODE_NORMAL < 256) (d : Dev) :
    linesLow (SetMode H H.MODE_NORMAL d) := by
  have hu : u8 H.MODE_NORMAL = H.MODE_NORMAL := Nat.mod_eq_of_lt hN
  simp only [SetMode, hu, if_true, delay, digitalWrite, linesLow]
  constructor <;> simp

/-- The state that `ReadParameters` returns, whatever its result. -/
theorem ReadParameters_snd (H : Header) (d : Dev) :
    (ReadParameters H d).2 = SetMode H H.MODE_NORMAL (unpackParams (requestParams H d)) := by
  unfold ReadParameters
  simp only []
  split_ifs <;> rfl

/-- Function `SetMode` leaves the buffer `_Params` alone. -/
theorem SetMode_Params (H : Header) (m : Nat) (d : Dev) :
    (SetMode H m d)._Params = d._Params := by
  obtain ⟨p, s, c, h⟩ := SetMode_eq H m d
  rw [h]

/-- The result of `ReadParameters` is the marker test on the buffer read. -/
theorem ReadParameters_fst (H : Header) (d : Dev) :
    (ReadParameters H d).1 = decide ((requestParams H d)._Params 0 = 0xC0) := by
  have hp : (SetMode H H.MODE_NORMAL (unpackParams (requestParams H d)))._Params 0
      = (requestParams H d)._Params 0 := by
    rw [SetMode_Params]
    rfl
  unfold ReadParameters
  simp only []
  rw [hp]
  split_ifs with h
  · simp [Ne.symm h]
  · simp only [ne_eq, not_not] at h
    simp [← h]

/-- The state that `ReadModelData` returns, whatever its result. -/
theorem ReadModelData_snd (H : Header) (d : Dev) :
    (ReadModelData H d).2 = SetMode H H.MODE_NORMAL (unpackModel (requestModel H d)) := by
  unfold ReadModelData
  simp only []
  split_ifs <;> rfl

/-- The packed bytes that `unpackParams` stores agree with the sub-fields it derives. -/
theorem unpackParams_consistent (e : Dev) : Consistent (unpackParams e) := by
  have h3 : u8 (e._Params 3) < 256 := Nat.mod_lt _ (by norm_num)
  have h5 : u8 (e._Params 5) < 256 := Nat.mod_lt _ (by norm_num)
  simp only [Consistent, unpackParams, BuildSpeedByte, BuildOptionByte]
  exact ⟨(speed_unpack_pack_byte _ h3).symm, (option_unpack_pack_byte _ h5).symm⟩

/-- Consistency of the packed bytes does not depend on the pins and the sleep log. -/
theorem Consistent_board (d : Dev) (p : Nat → Bool) (s : List Nat) (c : List Event) :
    Consistent { d with pins := p, slept := s, calls := c } ↔ Consistent d := by
  simp only [Consistent, BuildSpeedByte, BuildOptionByte]

/-- C7 as stated fails: the idle device is consistent, and `SetSpeed(1)`
stores 1 in the speed byte while the sub-fields still pack to 0. -/
theorem C7_SetSpeed_breaks_consistency :
    Consistent idle ∧ ¬ Consistent (SetSpeed 1 idle) ∧
    (SetSpeed 1 idle)._Speed = 1 ∧ (BuildSpeedByte (SetSpeed 1 idle))._Speed = 0 ∧
    ¬ Consistent (SetOptions 1 idle) := by
  simp only [Consistent, SetSpeed, SetOptions, BuildSpeedByte, BuildOptionByte, idle]
  decide

/-- C7, amended. The predicate "speed byte = pack of the speed sub-fields and
options byte = pack of the option sub-fields" is preserved by every sub-field
setter, by `SetAddress`, `SetAddressH`, `SetAddressL` and `SetChannel`, and
holds after `ReadParameters`. `SetSpeed` and `SetOptions` store their argument
in the packed byte alone: they preserve the predicate exactly when the argument
is the pack of the current sub-fields. -/
theorem C7_consistency_preserved (H : Header) (d : Dev) (v : Nat) (hc : Consistent d) :
    Consistent (SetAirDataRate v d) ∧ Consistent (SetParityBit v d) ∧
    Consistent (SetUARTBaudRate v d) ∧ Consistent (SetTransmissionMode v d) ∧
    Consistent (SetPullupMode v d) ∧ Consistent (SetWORTIming v d) ∧
    Consistent (SetFECMode v d) ∧ Consistent (SetTransmitPower v d) ∧
    Consistent (SetAddress v d) ∧ Consistent (SetAddressH v d) ∧
    Consistent (SetAddressL v d) ∧ Consistent (SetChannel v d) ∧
    Consistent (ReadParameters H d).2 ∧
    (Consistent (SetSpeed v d) ↔ u8 v = (BuildSpeedByte d)._Speed) ∧
    (Consistent (SetOptions v d) ↔ u8 v = (BuildOptionByte d)._Options) := by
  have hread : Consistent (ReadParameters H d).2 := by
    obtain ⟨p, s, c, hps⟩ := SetMode_eq H H.MODE_NORMAL (unpackParams (requestParams H d))
    rw [ReadParameters_snd, hps, Consistent_board]
    exact unpackParams_consistent _
  obtain ⟨hs, ho⟩ := hc
  simp only [BuildSpeedByte, BuildOptionByte] at hs ho
  refine ⟨?_, ?_, ?_, ?_, ?_, ?_, ?_, ?_, ?_, ?_, ?_, ?_, hread, ?_, ?_⟩
  all_goals
    simp only [Consistent, SetAirDataRate, SetParityBit, SetUARTBaudRate, SetTransmissionMode,
      SetPullupMode, SetWORTIming, SetFECMode, SetTransmitPower, SetAddress, SetAddressH,
      SetAddressL, SetChannel, SetSpeed, SetOptions, BuildSpeedByte, BuildOptionByte,
      true_and, and_true]
  all_goals first
    | exact ho
    | exact hs
    | exact ⟨hs, ho⟩
    | exact ⟨fun h => h.1, fun h => ⟨h, ho⟩⟩
    | exact ⟨fun h => h.2, fun h => ⟨hs, h⟩⟩

/-- C7 amended, evaluated on the idle device with the argument 5. -/
theorem C7_consistency_preserved_witness :
    Consistent idle ∧ Consistent (SetAirDataRate 5 idle) ∧ Consistent (SetFECMode 5 idle) ∧
    Consistent (ReadParameters sampleHeader idle).2 ∧
    (Consistent (SetSpeed 5 idle) ↔ u8 5 = (BuildSpeedByte idle)._Speed) := by
  have hc : Consistent idle := by
    simp only [Consistent, BuildSpeedByte, BuildOptionByte, idle]
    decide
  have h := C7_consistency_preserved sampleHeader idle 5 hc
  exact ⟨hc, h.1, h.2.2.2.2.2.2.1, h.2.2.2.2.2.2.2.2.2.2.2.2.1, h.2.2.2.2.2.2.2.2.2.2.2.2.2.1⟩

/-! ## Waiting for the module -/

/-- The polling loop returns once the status line reads high or the clock has
run past the timeout, given fuel for that many polls. -/
theorem pollAux_returns (timeout t : Nat) : ∀ (n : Nat) (d : Dev),
    (d.auxIn n = true ∨ timeout < u32 (u32 (d.clock n) + 4294967296 - t)) →
    ∃ e, pollAux timeout t (n + 1) d = some e := by
  intro n
  induction n with
  | zero =>
    intro d h
    unfold pollAux
    simp only [digitalRead, millis]
    by_cases ha : d.auxIn 0 = true
    · exact ⟨_, by rw [if_pos ha]⟩
    · rw [if_neg ha]
      have hc : timeout < u32 (u32 (d.clock 0) + 4294967296 - t) := by
        rcases h with h | h
        · exact absurd h ha
        · exact h
      exact ⟨_, by rw [if_pos hc]⟩
  | succ k ih =>
    intro d h
    unfold pollAux
    simp only [digitalRead, millis]
    by_cases ha : d.auxIn 0 = true
    · exact ⟨_, by rw [if_pos ha]⟩
    · rw [if_neg ha]
      by_cases hc : timeout < u32 (u32 (d.clock 0) + 4294967296 - t)
      · exact ⟨_, by rw [if_pos hc]⟩
      · rw [if_neg hc]
        exact ih _ h

/-- Function `CompleteTask` returns under the condition `waitEnds`. -/
theorem CompleteTask_returns (H : Header) (timeout n : Nat) (d : Dev)
    (h : waitEnds timeout d n) : ∃ e, CompleteTask H timeout (n + 1) d = some e := by
  unfold CompleteTask
  simp only [millis]
  by_cases hA : d._AUX = -1
  · simp only [hA, ne_eq, not_true_eq_false, if_false]
    split_ifs <;> exact ⟨_, rfl⟩
  · simp only [ne_eq, hA, not_false_eq_true, if_true]
    have hw : d.auxIn n = true ∨ u32 timeout < u32 (u32 (d.clock (n + 1)) + 4294967296
        - (if u32 (u32 (d.clock 0) + u32 timeout) = 0 then 0 else u32 (d.clock 0))) := by
      rcases h with h | h
      · exact absurd h hA
      · exact h
    obtain ⟨e, he⟩ := pollAux_returns (u32 timeout)
      (if u32 (u32 (d.clock 0) + u32 timeout) = 0 then 0 else u32 (d.clock 0)) n
      { d with clock := fun k => d.clock (k + 1),
               calls := d.calls ++ [Event.clock (u32 (d.clock 0))] } hw
    exact ⟨_, by rw [he]; rfl⟩

/-- Relation `sameEnv` is transitive. -/
theorem sameEnv_trans {a b c : Dev} (h1 : sameEnv a b) (h2 : sameEnv b c) : sameEnv a c :=
  ⟨h1.1.trans h2.1, h1.2.1.trans h2.2.1, h1.2.2.trans h2.2.2⟩

/-- Function `SetMode` leaves the status-line configuration and the future readings alone. -/
theorem SetMode_env (H : Header) (m : Nat) (d : Dev) : sameEnv (SetMode H m d) d := by
  obtain ⟨p, s, c, h⟩ := SetMode_eq H m d
  rw [h]
  exact ⟨rfl, rfl, rfl⟩

/-- Function `delay` leaves the status-line configuration and the future readings alone. -/
theorem delay_env (ms : Nat) (d : Dev) : sameEnv (delay ms d) d := ⟨rfl, rfl, rfl⟩

/-- Function `write` leaves the status-line configuration and the future readings alone. -/
theorem write_env (b : Nat) (d : Dev) : sameEnv (write b d) d := ⟨rfl, rfl, rfl⟩

/-- Function `ClearBuffer` leaves the status-line configuration and the future readings alone. -/
theorem ClearBuffer_env (d : Dev) : sameEnv (ClearBuffer d) d := ⟨rfl, rfl, rfl⟩

/-- The send block of `SaveParameters` reads neither the status line nor the clock. -/
theorem sendParams_env (H : Header) (retention : Nat) (d : Dev) :
    sameEnv (sendParams H retention d) d := by
  unfold sendParams
  exact sameEnv_trans (delay_env _ _) (sameEnv_trans (write_env _ _) (sameEnv_trans
    (write_env _ _) (sameEnv_trans (write_env _ _) (sameEnv_trans (write_env _ _)
    (sameEnv_trans (write_env _ _) (sameEnv_trans (write_env _ _) (sameEnv_trans
    (delay_env _ _) (sameEnv_trans (ClearBuffer_env _) (SetMode_env _ _ _)))))))))

/-- The wait of `SaveParameters` starts from the readings the caller had. -/
theorem waitEnds_sendParams (H : Header) (retention timeout n : Nat) (d : Dev)
    (h : waitEnds timeout d n) : waitEnds timeout (sendParams H retention d) n := by
  obtain ⟨e1, e2, e3⟩ := sendParams_env H retention d
  unfold waitEnds at h ⊢
  rw [e1, e2, e3]
  exact h

/-- C8. With a `MODE_NORMAL` macro that fits the `uint8_t` argument of
`SetMode`: for every initial state (any queued bytes, any response, none
included, any status-line and clock readings) both mode-select lines are low
in the state `ReadModelData` returns and in the state `ReadParameters`
returns; whenever `SaveParameters` returns, both lines are low; and
`SaveParameters` does return, with both lines low, as soon as its wait for the
module ends (`waitEnds` at some poll `n`). -/
theorem C8_mode_restored (H : Header) (hN : H.MODE_NORMAL < 256) (d : Dev) (retention : Nat) :
    linesLow (ReadModelData H d).2 ∧ linesLow (ReadParameters H d).2 ∧
    (∀ fuel e, SaveParameters H retention fuel d = some e → linesLow e) ∧
    (∀ n, waitEnds 4000 d n →
      ∃ e, SaveParameters H retention (n + 1) d = some e ∧ linesLow e) := by
  refine ⟨?_, ?_, ?_, ?_⟩
  · rw [ReadModelData_snd]
    exact SetMode_normal_low H hN _
  · rw [ReadParameters_snd]
    exact SetMode_normal_low H hN _
  · intro fuel e he
    unfold SaveParameters at he
    rw [Option.map_eq_some'] at he
    obtain ⟨x, -, hx⟩ := he
    rw [← hx]
    exact SetMode_normal_low H hN _
  · intro n hn
    obtain ⟨x, hx⟩ := CompleteTask_returns H 4000 n _ (waitEnds_sendParams H retention 4000 n d hn)
    refine ⟨SetMode H H.MODE_NORMAL x, ?_, SetMode_normal_low H hN _⟩
    unfold SaveParameters
    rw [hx]
    rfl

/-- C8, evaluated on a device with three stale bytes queued, no response from
the module and a status line that reads high at once. -/
theorem C8_mode_restored_witness :
    sampleHeader.MODE_NORMAL < 256 ∧ waitEnds 4000 { idle with rx := [1, 2, 3] } 0 ∧
    (linesLow (ReadModelData sampleHeader { idle with rx := [1, 2, 3] }).2 ∧
     linesLow (ReadParameters sampleHeader { idle with rx := [1, 2, 3] }).2 ∧
     (∀ fuel e, SaveParameters sampleHeader 0xC0 fuel { idle with rx := [1, 2, 3] } = some e →
        linesLow e) ∧
     (∀ n, waitEnds 4000 { idle with rx := [1, 2, 3] } n →
        ∃ e, SaveParameters sampleHeader 0xC0 (n + 1) { idle with rx := [1, 2, 3] } = some e ∧
          linesLow e)) :=
  ⟨by decide, Or.inr (Or.inl rfl),
    C8_mode_restored sampleHeader (by decide) { idle with rx := [1, 2, 3] } 0xC0⟩

/-! ## The buffer after a request -/

/-- The loop of `ClearBuffer` empties the queue. -/
theorem drain_eq_nil (l : List Nat) : drain l = [] := by
  induction l with
  | nil => rfl
  | cons _ _ ih => exact ih

/-- Function `SetMode` leaves the pending response alone. -/
theorem SetMode_incoming (H : Header) (m : Nat) (d : Dev) :
    (SetMode H m d).incoming = d.incoming := by
  obtain ⟨p, s, c, h⟩ := SetMode_eq H m d
  rw [h]

/-- Function `delay` leaves the receive queue alone. -/
theorem delay_rx (ms : Nat) (d : Dev) : (delay ms d).rx = d.rx := rfl

/-- Function `delay` leaves the pending response alone. -/
theorem delay_incoming (ms : Nat) (d : Dev) : (delay ms d).incoming = d.incoming := rfl

/-- Function `delay` leaves the buffer alone. -/
theorem delay_Params (ms : Nat) (d : Dev) : (delay ms d)._Params = d._Params := rfl

/-- Function `write` leaves the receive queue alone. -/
theorem write_rx (b : Nat) (d : Dev) : (write b d).rx = d.rx := rfl

/-- Function `write` leaves the pending response alone. -/
theorem write_incoming (b : Nat) (d : Dev) : (write b d).incoming = d.incoming := rfl

/-- Function `write` leaves the buffer alone. -/
theorem write_Params (b : Nat) (d : Dev) : (write b d)._Params = d._Params := rfl

/-- Function `ClearBuffer` empties the receive queue. -/
theorem ClearBuffer_rx (d : Dev) : (ClearBuffer d).rx = [] := drain_eq_nil _

/-- Function `ClearBuffer` leaves the pending response alone. -/
theorem ClearBuffer_incoming (d : Dev) : (ClearBuffer d).incoming = d.incoming := rfl

/-- Function `ClearBuffer` leaves the buffer alone. -/
theorem ClearBuffer_Params (d : Dev) : (ClearBuffer d)._Params = d._Params := rfl

/-- Assignment `_Params[i] = v` leaves the pending response alone. -/
theorem setParam_incoming (i v : Nat) (d : Dev) : (setParam i v d).incoming = d.incoming := rfl

/-- Assignment `_Params[i] = v` changes entry `i` only. -/
theorem setParam_Params (i v : Nat) (d : Dev) (j : Nat) :
    (setParam i v d)._Params j = if j = i then u8 v else d._Params j := rfl

/-- What the transport sees at the blocking read of `ReadParameters`: an empty
receive queue, the bytes the module delivers, and a zeroed buffer. -/
theorem requestParams_before_read (H : Header) (d : Dev) :
    ∃ x : Dev, requestParams H d = delay 5 (readBytes (u8 H.paramsLen) x).2 ∧
      x.rx = [] ∧ x.incoming = d.incoming ∧
      ∀ i, x._Params i = if i < 6 then 0 else d._Params i := by
  refine ⟨delay 5 (write 0xC1 (write 0xC1 (write 0xC1 (delay 5 (ClearBuffer
    (SetMode H H.MODE_PROGRAM (setParam 5 0 (setParam 4 0 (setParam 3 0 (setParam 2 0
    (setParam 1 0 (setParam 0 0 d)))))))))))), rfl, ?_, ?_, ?_⟩
  · simp only [delay_rx, write_rx, ClearBuffer_rx]
  · simp only [delay_incoming, write_incoming, ClearBuffer_incoming, SetMode_incoming,
      setParam_incoming]
  · intro i
    simp only [delay_Params, write_Params, ClearBuffer_Params, SetMode_Params, setParam_Params, u8]
    split_ifs <;> first | rfl | omega

/-- The buffer `_Params` after the request block of `ReadParameters`: byte `i`
of what the module delivered, for the bytes the read took, zero for the rest
of the first six. -/
theorem requestParams_Params (H : Header) (d : Dev) (i : Nat) :
    (requestParams H d)._Params i =
      if i < (d.incoming.take (u8 H.paramsLen)).length
      then u8 ((d.incoming.take (u8 H.paramsLen)).getD i 0)
      else if i < 6 then 0 else d._Params i := by
  obtain ⟨x, hx, hrx, hin, hp⟩ := requestParams_before_read H d
  rw [hx]
  show (readBytes (u8 H.paramsLen) x).2._Params i = _
  simp only [readBytes, hrx, hin, List.nil_append, hp]

/-- The members that `ReadParameters` leaves, in terms of the buffer read. -/
theorem ReadParameters_members (H : Header) (d : Dev) :
    (ReadParameters H d).2._AddressHigh = u8 ((requestParams H d)._Params 1) ∧
    (ReadParameters H d).2._AddressLow = u8 ((requestParams H d)._Params 2) ∧
    (ReadParameters H d).2._Speed = u8 ((requestParams H d)._Params 3) ∧
    (ReadParameters H d).2._Channel = u8 ((requestParams H d)._Params 4) ∧
    (ReadParameters H d).2._Options = u8 ((requestParams H d)._Params 5) ∧
    (ReadParameters H d).2._Address = u16 ((u8 ((requestParams H d)._Params 1) <<< 8)
      ||| u8 ((requestParams H d)._Params 2)) ∧
    (ReadParameters H d).2._ParityBit = u8 ((u8 ((requestParams H d)._Params 3) &&& 0xC0) >>> 6) ∧
    (ReadParameters H d).2._UARTDataRate
      = u8 ((u8 ((requestParams H d)._Params 3) &&& 0x38) >>> 3) ∧
    (ReadParameters H d).2._AirDataRate = u8 (u8 ((requestParams H d)._Params 3) &&& 0x07) ∧
    (ReadParameters H d).2._OptionTrans
      = u8 ((u8 ((requestParams H d)._Params 5) &&& 0x80) >>> 7) ∧
    (ReadParameters H d).2._OptionPullup
      = u8 ((u8 ((requestParams H d)._Params 5) &&& 0x40) >>> 6) ∧
    (ReadParameters H d).2._OptionWakeup
      = u8 ((u8 ((requestParams H d)._Params 5) &&& 0x38) >>> 3) ∧
    (ReadParameters H d).2._OptionFEC
      = u8 ((u8 ((requestParams H d)._Params 5) &&& 0x07) >>> 2) ∧
    (ReadParameters H d).2._OptionPower = u8 (u8 ((requestParams H d)._Params 5) &&& 0x03) := by
  obtain ⟨p, s, c, h⟩ := SetMode_eq H H.MODE_NORMAL (unpackParams (requestParams H d))
  rw [ReadParameters_snd, h]
  exact ⟨rfl, rfl, rfl, rfl, rfl, rfl, rfl, rfl, rfl, rfl, rfl, rfl, rfl, rfl⟩

/-- The buffer after a six-byte response, when the read asks for six bytes or more. -/
theorem requestParams_six (H : Header) (hlen : 6 ≤ u8 H.paramsLen) (d : Dev)
    (r0 r1 r2 r3 r4 r5 : Nat) (hin : d.incoming = [r0, r1, r2, r3, r4, r5]) :
    (requestParams H d)._Params 0 = u8 r0 ∧ (requestParams H d)._Params 1 = u8 r1 ∧
    (requestParams H d)._Params 2 = u8 r2 ∧ (requestParams H d)._Params 3 = u8 r3 ∧
    (requestParams H d)._Params 4 = u8 r4 ∧ (requestParams H d)._Params 5 = u8 r5 := by
  have ht : d.incoming.take (u8 H.paramsLen) = [r0, r1, r2, r3, r4, r5] := by
    rw [hin]
    exact List.take_of_length_le (by simpa using hlen)
  simp only [requestParams_Params, ht]
  simp

/-- Derived forms of the sub-fields of a byte. -/
theorem byte_fields : ∀ b, b < 256 →
    u8 ((u8 b &&& 0xC0) >>> 6) = (b &&& 0xC0) >>> 6 ∧
    u8 ((u8 b &&& 0x38) >>> 3) = (b &&& 0x38) >>> 3 ∧
    u8 (u8 b &&& 0x07) = b &&& 0x07 ∧
    u8 ((u8 b &&& 0x80) >>> 7) = b >>> 7 ∧
    u8 ((u8 b &&& 0x40) >>> 6) = (b >>> 6) &&& 1 ∧
    u8 ((u8 b &&& 0x07) >>> 2) = (b &&& 0x07) >>> 2 ∧
    u8 (u8 b &&& 0x03) = b &&& 0x03 ∧ u8 (u8 b) = b := by
  decide

/-- Two bytes joined as `(h << 8) | l` fit 16 bits. -/
theorem addr_fits (h l : Nat) (hh : h < 256) (hl : l < 256) :
    u16 ((h <<< 8) ||| l) = (h <<< 8) ||| l := by
  rw [shl8_or _ _ hl]
  unfold u16; omega

/-- What `ReadParameters` returns and stores for a six-byte response, whatever its marker. -/
theorem ReadParameters_six (H : Header) (hlen : 6 ≤ u8 H.paramsLen) (d : Dev)
    (r0 r1 r2 r3 r4 r5 : Nat) (h0 : r0 < 256) (h1 : r1 < 256) (h2 : r2 < 256) (h3 : r3 < 256)
    (h4 : r4 < 256) (h5 : r5 < 256) (hin : d.incoming = [r0, r1, r2, r3, r4, r5]) :
    (ReadParameters H d).1 = decide (r0 = 0xC0) ∧
    (ReadParameters H d).2._AddressHigh = r1 ∧
    (ReadParameters H d).2._AddressLow = r2 ∧
    GetAddress (ReadParameters H d).2 = (r1 <<< 8) ||| r2 ∧
    (ReadParameters H d).2._Address = (r1 <<< 8) ||| r2 ∧
    (ReadParameters H d).2._Speed = r3 ∧
    (ReadParameters H d).2._Channel = r4 ∧
    (ReadParameters H d).2._Options = r5 ∧
    (ReadParameters H d).2._ParityBit = (r3 &&& 0xC0) >>> 6 ∧
    (ReadParameters H d).2._UARTDataRate = (r3 &&& 0x38) >>> 3 ∧
    (ReadParameters H d).2._AirDataRate = r3 &&& 0x07 ∧
    (ReadParameters H d).2._OptionTrans = r5 >>> 7 ∧
    (ReadParameters H d).2._OptionPullup = (r5 >>> 6) &&& 1 ∧
    (ReadParameters H d).2._OptionWakeup = (r5 &&& 0x38) >>> 3 ∧
    (ReadParameters H d).2._OptionFEC = (r5 &&& 0x07) >>> 2 ∧
    (ReadParameters H d).2._OptionPower = r5 &&& 0x03 := by
  obtain ⟨p0, p1, p2, p3, p4, p5⟩ := requestParams_six H hlen d r0 r1 r2 r3 r4 r5 hin
  obtain ⟨m1, m2, m3, m4, m5, m6, m7, m8, m9, m10, m11, m12, m13, m14⟩ := ReadParameters_members H d
  have e0 : u8 r0 = r0 := Nat.mod_eq_of_lt h0
  have e1 : u8 r1 = r1 := Nat.mod_eq_of_lt h1
  have e2 : u8 r2 = r2 := Nat.mod_eq_of_lt h2
  have e4 : u8 r4 = r4 := Nat.mod_eq_of_lt h4
  obtain ⟨s1, s2, s3, -, -, -, -, s8⟩ := byte_fields r3 h3
  obtain ⟨-, o2, -, o4, o5, o6, o7, o8⟩ := byte_fields r5 h5
  rw [p1, e1, e1] at m1
  rw [p2, e2, e2] at m2
  rw [p3, s8] at m3
  rw [p4, e4, e4] at m4
  rw [p5, o8] at m5
  rw [p1, p2, e1, e2, e1, e2, addr_fits r1 r2 h1 h2] at m6
  rw [p3, s8] at m7 m8 m9
  rw [p5, o8] at m10 m11 m12 m13 m14
  have hu3 : u8 r3 = r3 := Nat.mod_eq_of_lt h3
  have hu5 : u8 r5 = r5 := Nat.mod_eq_of_lt h5
  rw [hu3] at s1 s2 s3
  rw [hu5] at o2 o4 o5 o6 o7
  refine ⟨?_, m1, m2, ?_, m6, m3, m4, m5, m7.trans s1, m8.trans s2, m9.trans s3, m10.trans o4,
    m11.trans o5, m12.trans o2, m13.trans o6, m14.trans o7⟩
  · rw [ReadParameters_fst, p0, e0]
  · unfold GetAddress
    rw [m1, m2]
    exact addr_fits r1 r2 h1 h2

/-! ## Reading the parameters -/

/-- C9. When the read asks for at least six bytes (6 ≤ `sizeof(_Params)` as a
`uint8_t`), for every state (stale bytes queued included) and every six-byte
response `r` with `r[0] = 0xC0`, `ReadParameters` returns `true` and leaves
addressHigh = r[1], addressLow = r[2], `GetAddress()` = (r[1] << 8) | r[2],
speedByte = r[3], channel = r[4], optionsByte = r[5] and every sub-field equal
to the unpacking of its packed byte. -/
theorem C9_ReadParameters_decodes (H : Header) (hlen : 6 ≤ u8 H.paramsLen) (d : Dev)
    (r0 r1 r2 r3 r4 r5 : Nat) (h0 : r0 < 256) (h1 : r1 < 256) (h2 : r2 < 256) (h3 : r3 < 256)
    (h4 : r4 < 256) (h5 : r5 < 256) (hin : d.incoming = [r0, r1, r2, r3, r4, r5])
    (hm : r0 = 0xC0) :
    (ReadParameters H d).1 = true ∧
    (ReadParameters H d).2._AddressHigh = r1 ∧
    (ReadParameters H d).2._AddressLow = r2 ∧
    GetAddress (ReadParameters H d).2 = (r1 <<< 8) ||| r2 ∧
    (ReadParameters H d).2._Address = (r1 <<< 8) ||| r2 ∧
    (ReadParameters H d).2._Speed = r3 ∧
    (ReadParameters H d).2._Channel = r4 ∧
    (ReadParameters H d).2._Options = r5 ∧
    (ReadParameters H d).2._ParityBit = (r3 &&& 0xC0) >>> 6 ∧
    (ReadParameters H d).2._UARTDataRate = (r3 &&& 0x38) >>> 3 ∧
    (ReadParameters H d).2._AirDataRate = r3 &&& 0x07 ∧
    (ReadParameters H d).2._OptionTrans = r5 >>> 7 ∧
    (ReadParameters H d).2._OptionPullup = (r5 >>> 6) &&& 1 ∧
    (ReadParameters H d).2._OptionWakeup = (r5 &&& 0x38) >>> 3 ∧
    (ReadParameters H d).2._OptionFEC = (r5 &&& 0x07) >>> 2 ∧
    (ReadParameters H d).2._OptionPower = r5 &&& 0x03 := by
  obtain ⟨hres, rest⟩ := ReadParameters_six H hlen d r0 r1 r2 r3 r4 r5 h0 h1 h2 h3 h4 h5 hin
  refine ⟨?_, rest⟩
  rw [hres]
  exact decide_eq_true hm

/-- C9 at the response [0xC0, 0x00, 0x01, 0x03, 0x17, 0xC0], received with two
stale bytes queued: success, address 0x0001, parity 0, uartRate 0, airRate 3,
channel 0x17, transmissionMode 1, pullup 1, the other option fields 0. -/
theorem C9_ReadParameters_decodes_witness :
    (ReadParameters sampleHeader
      { idle with rx := [9, 9], incoming := [0xC0, 0x00, 0x01, 0x03, 0x17, 0xC0] }).1 = true ∧
    (ReadParameters sampleHeader
      { idle with rx := [9, 9], incoming := [0xC0, 0x00, 0x01, 0x03, 0x17, 0xC0] }).2._AddressHigh
      = 0x00 ∧
    (ReadParameters sampleHeader
      { idle with rx := [9, 9], incoming := [0xC0, 0x00, 0x01, 0x03, 0x17, 0xC0] }).2._AddressLow
      = 0x01 ∧
    GetAddress (ReadParameters sampleHeader
      { idle with rx := [9, 9], incoming := [0xC0, 0x00, 0x01, 0x03, 0x17, 0xC0] }).2
      = (0x00 <<< 8) ||| 0x01 ∧
    (ReadParameters sampleHeader
      { idle with rx := [9, 9], incoming := [0xC0, 0x00, 0x01, 0x03, 0x17, 0xC0] }).2._Address
      = (0x00 <<< 8) ||| 0x01 ∧
    (ReadParameters sampleHeader
      { idle with rx := [9, 9], incoming := [0xC0, 0x00, 0x01, 0x03, 0x17, 0xC0] }).2._Speed
      = 0x03 ∧
    (ReadParameters sampleHeader
      { idle with rx := [9, 9], incoming := [0xC0, 0x00, 0x01, 0x03, 0x17, 0xC0] }).2._Channel
      = 0x17 ∧
    (ReadParameters sampleHeader
      { idle with rx := [9, 9], incoming := [0xC0, 0x00, 0x01, 0x03, 0x17, 0xC0] }).2._Options
      = 0xC0 ∧
    (ReadParameters sampleHeader
      { idle with rx := [9, 9], incoming := [0xC0, 0x00, 0x01, 0x03, 0x17, 0xC0] }).2._ParityBit
      = (0x03 &&& 0xC0) >>> 6 ∧
    (ReadParameters sampleHeader
      { idle with rx := [9, 9], incoming := [0xC0, 0x00, 0x01, 0x03, 0x17, 0xC0] }).2._UARTDataRate
      = (0x03 &&& 0x38) >>> 3 ∧
    (ReadParameters sampleHeader
      { idle with rx := [9, 9], incoming := [0xC0, 0x00, 0x01, 0x03, 0x17, 0xC0] }).2._AirDataRate
      = 0x03 &&& 0x07 ∧
    (ReadParameters sampleHeader
      { idle with rx := [9, 9], incoming := [0xC0, 0x00, 0x01, 0x03, 0x17, 0xC0] }).2._OptionTrans
      = 0xC0 >>> 7 ∧
    (ReadParameters sampleHeader
      { idle with rx := [9, 9], incoming := [0xC0, 0x00, 0x01, 0x03, 0x17, 0xC0] }).2._OptionPullup
      = (0xC0 >>> 6) &&& 1 ∧
    (ReadParameters sampleHeader
      { idle with rx := [9, 9], incoming := [0xC0, 0x00, 0x01, 0x03, 0x17, 0xC0] }).2._OptionWakeup
      = (0xC0 &&& 0x38) >>> 3 ∧
    (ReadParameters sampleHeader
      { idle with rx := [9, 9], incoming := [0xC0, 0x00, 0x01, 0x03, 0x17, 0xC0] }).2._OptionFEC
      = (0xC0 &&& 0x07) >>> 2 ∧
    (ReadParameters sampleHeader
      { idle with rx := [9, 9], incoming := [0xC0, 0x00, 0x01, 0x03, 0x17, 0xC0] }).2._OptionPower
      = 0xC0 &&& 0x03 :=
  C9_ReadParameters_decodes sampleHeader (by decide)
    { idle with rx := [9, 9], incoming := [0xC0, 0x00, 0x01, 0x03, 0x17, 0xC0] }
    0xC0 0x00 0x01 0x03 0x17 0xC0 (by decide) (by decide) (by decide) (by decide) (by decide)
    (by decide) rfl rfl

/-- C10 as stated fails: the device `configured`, holding address 0x1234,
channel 0x17 and air rate 3 (speed byte 0x03), receives [0xC5, 0, 0, 0, 0, 0]; `ReadParameters`
returns `false` and the address, the channel, the speed byte and the air rate
are all 0 afterwards. -/
theorem C10_failed_read_overwrites :
    (ReadParameters sampleHeader
      { configured with incoming := [0xC5, 0, 0, 0, 0, 0] }).1 = false ∧
    (ReadParameters sampleHeader
      { configured with incoming := [0xC5, 0, 0, 0, 0, 0] }).2._AddressHigh = 0 ∧
    (ReadParameters sampleHeader
      { configured with incoming := [0xC5, 0, 0, 0, 0, 0] }).2._AddressLow = 0 ∧
    (ReadParameters sampleHeader
      { configured with incoming := [0xC5, 0, 0, 0, 0, 0] }).2._Channel = 0 ∧
    (ReadParameters sampleHeader
      { configured with incoming := [0xC5, 0, 0, 0, 0, 0] }).2._Speed = 0 ∧
    (ReadParameters sampleHeader
      { configured with incoming := [0xC5, 0, 0, 0, 0, 0] }).2._AirDataRate = 0 ∧
    ¬ ((ReadParameters sampleHeader
      { configured with incoming := [0xC5, 0, 0, 0, 0, 0] }).2._AddressHigh
      = ({ configured with incoming := [0xC5, 0, 0, 0, 0, 0] } : Dev)._AddressHigh) := by
  decide

/-- C10, amended. For every prior state and every response whose first byte is
not 0xC0, `ReadParameters` returns `false`. The stored parameters are not
kept: when the response has six bytes and the read asks for at least six, they
are those decoded from the response, addressHigh = r[1], addressLow = r[2],
speedByte = r[3], channel = r[4], optionsByte = r[5], and every sub-field is
the unpacking of its packed byte. -/
theorem C10_failed_read_result (H : Header) (d : Dev) (r0 : Nat) (rest : List Nat)
    (h0 : r0 < 256) (hin : d.incoming = r0 :: rest) (hm : r0 ≠ 0xC0) :
    (ReadParameters H d).1 = false ∧
    ∀ r1 r2 r3 r4 r5, r1 < 256 → r2 < 256 → r3 < 256 → r4 < 256 → r5 < 256 →
      rest = [r1, r2, r3, r4, r5] → 6 ≤ u8 H.paramsLen →
      (ReadParameters H d).2._AddressHigh = r1 ∧
      (ReadParameters H d).2._AddressLow = r2 ∧
      (ReadParameters H d).2._Speed = r3 ∧
      (ReadParameters H d).2._Channel = r4 ∧
      (ReadParameters H d).2._Options = r5 ∧
      (ReadParameters H d).2._ParityBit = (r3 &&& 0xC0) >>> 6 ∧
      (ReadParameters H d).2._UARTDataRate = (r3 &&& 0x38) >>> 3 ∧
      (ReadParameters H d).2._AirDataRate = r3 &&& 0x07 ∧
      (ReadParameters H d).2._OptionTrans = r5 >>> 7 ∧
      (ReadParameters H d).2._OptionPullup = (r5 >>> 6) &&& 1 ∧
      (ReadParameters H d).2._OptionWakeup = (r5 &&& 0x38) >>> 3 ∧
      (ReadParameters H d).2._OptionFEC = (r5 &&& 0x07) >>> 2 ∧
      (ReadParameters H d).2._OptionPower = r5 &&& 0x03 := by
  constructor
  · rw [ReadParameters_fst, requestParams_Params, hin]
    have e0 : u8 r0 = r0 := Nat.mod_eq_of_lt h0
    cases hn : u8 H.paramsLen with
    | zero => simp
    | succ k => simpa [e0] using hm
  · intro r1 r2 r3 r4 r5 h1 h2 h3 h4 h5 hrest hlen
    rw [hrest] at hin
    obtain ⟨-, a1, a2, -, -, a3, a4, a5, more⟩ :=
      ReadParameters_six H hlen d r0 r1 r2 r3 r4 r5 h0 h1 h2 h3 h4 h5 hin
    exact ⟨a1, a2, a3, a4, a5, more⟩

/-- C10 amended, at the response [0xC5, 0x02, 0x03, 0x1A, 0x05, 0x44] received
by the device `configured`, which held address 0x1234. -/
theorem C10_failed_read_result_witness :
    (ReadParameters sampleHeader
      { configured with incoming := [0xC5, 0x02, 0x03, 0x1A, 0x05, 0x44] }).1 = false ∧
    (ReadParameters sampleHeader
      { configured with incoming := [0xC5, 0x02, 0x03, 0x1A, 0x05, 0x44] }).2._AddressHigh
      = 0x02 ∧
    (ReadParameters sampleHeader
      { configured with incoming := [0xC5, 0x02, 0x03, 0x1A, 0x05, 0x44] }).2._AddressLow
      = 0x03 ∧
    (ReadParameters sampleHeader
      { configured with incoming := [0xC5, 0x02, 0x03, 0x1A, 0x05, 0x44] }).2._Speed = 0x1A ∧
    (ReadParameters sampleHeader
      { configured with incoming := [0xC5, 0x02, 0x03, 0x1A, 0x05, 0x44] }).2._Channel = 0x05 ∧
    (ReadParameters sampleHeader
      { configured with incoming := [0xC5, 0x02, 0x03, 0x1A, 0x05, 0x44] }).2._Options = 0x44 :=
  have h := C10_failed_read_result sampleHeader
    { configured with incoming := [0xC5, 0x02, 0x03, 0x1A, 0x05, 0x44] }
    0xC5 [0x02, 0x03, 0x1A, 0x05, 0x44] (by decide) rfl (by decide)
  have g := h.2 0x02 0x03 0x1A 0x05 0x44 (by decide) (by decide) (by decide) (by decide)
    (by decide) rfl (by decide)
  ⟨h.1, g.1, g.2.1, g.2.2.1, g.2.2.2.1, g.2.2.2.2.1⟩

/-! ## Reading the model data -/

/-- What the transport sees at the blocking read of `ReadModelData`: an empty
receive queue, the bytes the module delivers, and the first four buffer entries zeroed. -/
theorem requestModel_before_read (H : Header) (d : Dev) :
    ∃ x : Dev, requestModel H d = delay 5 (readBytes (u8 H.paramsLen) x).2 ∧
      x.rx = [] ∧ x.incoming = d.incoming ∧
      ∀ i, x._Params i = if i < 4 then 0 else d._Params i := by
  refine ⟨delay 5 (write 0xC3 (write 0xC3 (write 0xC3 (ClearBuffer
    (SetMode H H.MODE_PROGRAM (setParam 3 0 (setParam 2 0
    (setParam 1 0 (setParam 0 0 d))))))))), rfl, ?_, ?_, ?_⟩
  · simp only [delay_rx, write_rx, ClearBuffer_rx]
  · simp only [delay_incoming, write_incoming, ClearBuffer_incoming, SetMode_incoming,
      setParam_incoming]
  · intro i
    simp only [delay_Params, write_Params, ClearBuffer_Params, SetMode_Params, setParam_Params, u8]
    split_ifs <;> first | rfl | omega

/-- The buffer `_Params` after the request block of `ReadModelData`. -/
theorem requestModel_Params (H : Header) (d : Dev) (i : Nat) :
    (requestModel H d)._Params i =
      if i < (d.incoming.take (u8 H.paramsLen)).length
      then u8 ((d.incoming.take (u8 H.paramsLen)).getD i 0)
      else if i < 4 then 0 else d._Params i := by
  obtain ⟨x, hx, hrx, hin, hp⟩ := requestModel_before_read H d
  rw [hx]
  show (readBytes (u8 H.paramsLen) x).2._Params i = _
  simp only [readBytes, hrx, hin, List.nil_append, hp]

/-- The result of `ReadModelData` is the marker test on the buffer read. -/
theorem ReadModelData_fst (H : Header) (d : Dev) :
    (ReadModelData H d).1 = decide ((requestModel H d)._Params 0 = 0xC3) := by
  have hp : (SetMode H H.MODE_NORMAL (unpackModel (requestModel H d)))._Params 0
      = (requestModel H d)._Params 0 := by
    rw [SetMode_Params]
    rfl
  unfold ReadModelData
  simp only []
  rw [hp]
  split_ifs with h
  · simp [Ne.symm h]
  · simp only [ne_eq, not_not] at h
    simp [← h]

/-- The model data that `ReadModelData` leaves, in terms of the buffer read. -/
theorem ReadModelData_members (H : Header) (d : Dev) :
    GetModel (ReadModelData H d).2 = u8 ((requestModel H d)._Params 1) ∧
    GetVersion (ReadModelData H d).2 = u8 ((requestModel H d)._Params 2) ∧
    GetFeatures (ReadModelData H d).2 = u8 ((requestModel H d)._Params 3) := by
  obtain ⟨p, s, c, h⟩ := SetMode_eq H H.MODE_NORMAL (unpackModel (requestModel H d))
  rw [ReadModelData_snd, h]
  exact ⟨rfl, rfl, rfl⟩

/-- The first four buffer entries after a response of four bytes or more, when
the read asks for at least four. -/
theorem requestModel_four (H : Header) (hlen : 4 ≤ u8 H.paramsLen) (d : Dev)
    (r0 r1 r2 r3 : Nat) (rest : List Nat) (hin : d.incoming = r0 :: r1 :: r2 :: r3 :: rest) :
    (requestModel H d)._Params 0 = u8 r0 ∧ (requestModel H d)._Params 1 = u8 r1 ∧
    (requestModel H d)._Params 2 = u8 r2 ∧ (requestModel H d)._Params 3 = u8 r3 := by
  obtain ⟨k, hk⟩ : ∃ k, u8 H.paramsLen = k + 4 := ⟨u8 H.paramsLen - 4, by omega⟩
  simp only [requestModel_Params, hin, hk]
  simp

/-- C11. When the read asks for at least four bytes, for every state and every
response `r` of four bytes or more, `ReadModelData` returns `true` if and only
if `r[0] = 0xC3`, and on success `GetModel()` = r[1], `GetVersion()` = r[2],
`GetFeatures()` = r[3]. -/
theorem C11_ReadModelData_decodes (H : Header) (hlen : 4 ≤ u8 H.paramsLen) (d : Dev)
    (r0 r1 r2 r3 : Nat) (rest : List Nat) (h0 : r0 < 256) (h1 : r1 < 256) (h2 : r2 < 256)
    (h3 : r3 < 256) (hin : d.incoming = r0 :: r1 :: r2 :: r3 :: rest) :
    ((ReadModelData H d).1 = true ↔ r0 = 0xC3) ∧
    ((ReadModelData H d).1 = true →
      GetModel (ReadModelData H d).2 = r1 ∧ GetVersion (ReadModelData H d).2 = r2 ∧
      GetFeatures (ReadModelData H d).2 = r3) := by
  obtain ⟨p0, p1, p2, p3⟩ := requestModel_four H hlen d r0 r1 r2 r3 rest hin
  obtain ⟨m1, m2, m3⟩ := ReadModelData_members H d
  have e0 : u8 r0 = r0 := Nat.mod_eq_of_lt h0
  have e1 : u8 r1 = r1 := Nat.mod_eq_of_lt h1
  have e2 : u8 r2 = r2 := Nat.mod_eq_of_lt h2
  have e3 : u8 r3 = r3 := Nat.mod_eq_of_lt h3
  rw [p1, e1, e1] at m1
  rw [p2, e2, e2] at m2
  rw [p3, e3, e3] at m3
  refine ⟨?_, fun _ => ⟨m1, m2, m3⟩⟩
  rw [ReadModelData_fst, p0, e0]
  exact decide_eq_true_iff

/-- C11 at the response [0xC3, 0x32, 0x05, 0x00]: success, model 0x32,
version 5, features 0. -/
theorem C11_ReadModelData_decodes_witness :
    (ReadModelData sampleHeader { idle with incoming := [0xC3, 0x32, 0x05, 0x00] }).1 = true ∧
    GetModel (ReadModelData sampleHeader { idle with incoming := [0xC3, 0x32, 0x05, 0x00] }).2
      = 0x32 ∧
    GetVersion (ReadModelData sampleHeader { idle with incoming := [0xC3, 0x32, 0x05, 0x00] }).2
      = 0x05 ∧
    GetFeatures (ReadModelData sampleHeader { idle with incoming := [0xC3, 0x32, 0x05, 0x00] }).2
      = 0x00 :=
  have h := C11_ReadModelData_decodes sampleHeader (by decide)
    { idle with incoming := [0xC3, 0x32, 0x05, 0x00] } 0xC3 0x32 0x05 0x00 []
    (by decide) (by decide) (by decide) (by decide) rfl
  ⟨h.1.mpr rfl, h.2 (h.1.mpr rfl)⟩

/-! ## A module that does not answer -/

/-- C18. For every prior state, a buffer left by an earlier successful read
included, when the transport delivers no byte to the read, `ReadParameters`
returns `false` and `ReadModelData` returns `false`: the marker entry
`_Params[0]` was zeroed before the read and stays zero. -/
theorem C18_silent_module_detected (H : Header) (d : Dev) (hin : d.incoming = []) :
    (ReadParameters H d).1 = false ∧ (ReadModelData H d).1 = false ∧
    (requestParams H d)._Params 0 = 0 ∧ (requestModel H d)._Params 0 = 0 := by
  have hp : (requestParams H d)._Params 0 = 0 := by
    rw [requestParams_Params, hin]
    simp
  have hq : (requestModel H d)._Params 0 = 0 := by
    rw [requestModel_Params, hin]
    simp
  refine ⟨?_, ?_, hp, hq⟩
  · rw [ReadParameters_fst, hp]
    decide
  · rw [ReadModelData_fst, hq]
    decide

/-- C18 on the state left by a successful read, whose buffer still holds the
marker 0xC0, with stale bytes queued and no answer from the module. -/
theorem C18_silent_module_detected_witness :
    (ReadParameters sampleHeader { idle with incoming := [0xC0, 0, 1, 3, 0x17, 0xC0] }).2._Params 0
      = 0xC0 ∧
    (ReadParameters sampleHeader { (ReadParameters sampleHeader
      { idle with incoming := [0xC0, 0, 1, 3, 0x17, 0xC0] }).2 with rx := [0xC0, 7] }).1 = false ∧
    (ReadModelData sampleHeader { (ReadParameters sampleHeader
      { idle with incoming := [0xC0, 0, 1, 3, 0x17, 0xC0] }).2 with rx := [0xC0, 7] }).1 = false :=
  have h := C18_silent_module_detected sampleHeader { (ReadParameters sampleHeader
      { idle with incoming := [0xC0, 0, 1, 3, 0x17, 0xC0] }).2 with rx := [0xC0, 7] } (by decide)
  ⟨by decide, h.1, h.2.1⟩

/-! ## Read lengths -/

/-- Function `SetMode` leaves the outbound log alone. -/
theorem SetMode_tx (H : Header) (m : Nat) (d : Dev) : (SetMode H m d).tx = d.tx := by
  obtain ⟨p, s, c, h⟩ := SetMode_eq H m d
  rw [h]

/-- The blocking read of `readBytes` leaves what it did not take of the
module's delivery, when the receive queue was empty. -/
theorem readBytes_incoming (n : Nat) (x : Dev) (hrx : x.rx = []) :
    (readBytes n x).2.incoming = x.incoming.drop n := by
  simp only [readBytes, hrx, List.length_nil, Nat.sub_zero]

/-- What `ReadModelData` leaves of the module's delivery. -/
theorem ReadModelData_incoming (H : Header) (d : Dev) :
    (ReadModelData H d).2.incoming = d.incoming.drop (u8 H.paramsLen) := by
  obtain ⟨x, hx, hrx, hin, -⟩ := requestModel_before_read H d
  rw [ReadModelData_snd, SetMode_incoming]
  show (requestModel H d).incoming = _
  rw [hx, delay_incoming, readBytes_incoming _ _ hrx, hin]

/-- What `ReadParameters` leaves of the module's delivery. -/
theorem ReadParameters_incoming (H : Header) (d : Dev) :
    (ReadParameters H d).2.incoming = d.incoming.drop (u8 H.paramsLen) := by
  obtain ⟨x, hx, hrx, hin, -⟩ := requestParams_before_read H d
  rw [ReadParameters_snd, SetMode_incoming]
  show (requestParams H d).incoming = _
  rw [hx, delay_incoming, readBytes_incoming _ _ hrx, hin]

/-- C17 as stated fails: with a six-entry buffer and a delivery of seven
bytes, `ReadModelData` takes six of them, not four: entries 4 and 5 of the
buffer receive 0xAA and 0xBB and only the seventh byte is left. -/
theorem C17_ReadModelData_takes_six :
    (ReadModelData sampleHeader
      { idle with incoming := [0xC3, 0x32, 0x05, 0x00, 0xAA, 0xBB, 0xCC] }).2.incoming = [0xCC] ∧
    (ReadModelData sampleHeader
      { idle with incoming := [0xC3, 0x32, 0x05, 0x00, 0xAA, 0xBB, 0xCC] }).2._Params 4 = 0xAA ∧
    (ReadModelData sampleHeader
      { idle with incoming := [0xC3, 0x32, 0x05, 0x00, 0xAA, 0xBB, 0xCC] }).2._Params 5 = 0xBB ∧
    ¬ ((ReadModelData sampleHeader
      { idle with incoming := [0xC3, 0x32, 0x05, 0x00, 0xAA, 0xBB, 0xCC] }).2.incoming
        = [0xAA, 0xBB, 0xCC]) := by
  decide

/-- C17, amended. `ReadModelData` and `ReadParameters` pass the same length to
the transport, `sizeof(_Params)` cast to `uint8_t`: each blocks on a read of
that length with an empty receive queue, and each takes that many bytes of
what the module delivers. For a buffer of six entries that length is 6 for
both, so `ReadModelData` does not ask for 4. -/
theorem C17_same_read_length (H : Header) (d : Dev) :
    (∃ x : Dev, requestModel H d = delay 5 (readBytes (u8 H.paramsLen) x).2 ∧
      x.rx = [] ∧ x.incoming = d.incoming) ∧
    (∃ x : Dev, requestParams H d = delay 5 (readBytes (u8 H.paramsLen) x).2 ∧
      x.rx = [] ∧ x.incoming = d.incoming) ∧
    (ReadModelData H d).2.incoming = d.incoming.drop (u8 H.paramsLen) ∧
    (ReadParameters H d).2.incoming = d.incoming.drop (u8 H.paramsLen) ∧
    (H.paramsLen = 6 →
      (ReadModelData H d).2.incoming = d.incoming.drop 6 ∧
      (ReadParameters H d).2.incoming = d.incoming.drop 6) := by
  obtain ⟨x, hx, hrx, hin, -⟩ := requestModel_before_read H d
  obtain ⟨y, hy, hry, hiny, -⟩ := requestParams_before_read H d
  refine ⟨⟨x, hx, hrx, hin⟩, ⟨y, hy, hry, hiny⟩, ReadModelData_incoming H d,
    ReadParameters_incoming H d, ?_⟩
  intro h6
  have h : u8 H.paramsLen = 6 := by rw [h6]; rfl
  rw [ReadModelData_incoming, ReadParameters_incoming, h]
  exact ⟨rfl, rfl⟩

/-- C17 amended, evaluated with a six-entry buffer on a delivery of seven bytes. -/
theorem C17_same_read_length_witness :
    (ReadModelData sampleHeader
      { idle with incoming := [0xC3, 0x32, 0x05, 0x00, 0xAA, 0xBB, 0xCC] }).2.incoming
      = [0xC3, 0x32, 0x05, 0x00, 0xAA, 0xBB, 0xCC].drop 6 ∧
    (ReadParameters sampleHeader
      { idle with incoming := [0xC3, 0x32, 0x05, 0x00, 0xAA, 0xBB, 0xCC] }).2.incoming
      = [0xC3, 0x32, 0x05, 0x00, 0xAA, 0xBB, 0xCC].drop 6 :=
  (C17_same_read_length sampleHeader
    { idle with incoming := [0xC3, 0x32, 0x05, 0x00, 0xAA, 0xBB, 0xCC] }).2.2.2.2 rfl

/-! ## Clearing the receive queue -/

/-- Function `SetMode(MODE_PROGRAM)` leaves both mode-select lines high. -/
theorem SetMode_program_high (H : Header) (hM : modesDistinct H) (d : Dev) :
    linesAre true true (SetMode H H.MODE_PROGRAM d) := by
  obtain ⟨-, -, -, h4, -, -, n3, -, n5, n6⟩ := hM
  have hu : u8 H.MODE_PROGRAM = H.MODE_PROGRAM := Nat.mod_eq_of_lt h4
  simp only [SetMode, hu, if_neg (Ne.symm n3), if_neg (Ne.symm n5), if_neg (Ne.symm n6), if_true,
    delay, digitalWrite, linesAre]
  constructor <;> simp

/-- The send block of `SaveParameters` is its write block run after the mode
change, the clearing and the 5 ms sleep. -/
theorem sendParams_eq (H : Header) (retention : Nat) (d : Dev) :
    sendParams H retention d
      = writeParams retention (delay 5 (ClearBuffer (SetMode H H.MODE_PROGRAM d))) := rfl

/-- Assignment `_Params[i] = v` leaves the outbound log alone. -/
theorem setParam_tx (i v : Nat) (d : Dev) : (setParam i v d).tx = d.tx := rfl

/-- What `ClearBuffer` does: the queue is emptied, nothing else is touched. -/
theorem ClearBuffer_effect (d : Dev) :
    available (ClearBuffer d) = 0 ∧ (ClearBuffer d).incoming = d.incoming ∧
      (ClearBuffer d).tx = d.tx ∧ sameParams (ClearBuffer d) d := by
  refine ⟨?_, rfl, rfl, ?_⟩
  · show (ClearBuffer d).rx.length = 0
    rw [ClearBuffer_rx]
    rfl
  · exact ⟨rfl, rfl, rfl, rfl, rfl, rfl, rfl, rfl, rfl, rfl, rfl, rfl, rfl, rfl, rfl, rfl, rfl, rfl⟩

/-! ## What a wait changes -/

/-- The polling loop consumes readings of the status line and of the clock and
changes nothing else. -/
theorem pollAux_frame (timeout t : Nat) : ∀ (fuel : Nat) (d e : Dev),
    pollAux timeout t fuel d = some e →
      ∃ a c l, e = { d with auxIn := a, clock := c, calls := l } := by
  intro fuel
  induction fuel with
  | zero =>
    intro d e h
    simp [pollAux] at h
  | succ k ih =>
    intro d e h
    unfold pollAux at h
    simp only [digitalRead, millis] at h
    by_cases ha : d.auxIn 0 = true
    · rw [if_pos ha] at h
      exact ⟨_, d.clock, _, (Option.some.inj h).symm⟩
    · rw [if_neg ha] at h
      by_cases hc : timeout < u32 (u32 (d.clock 0) + 4294967296 - t)
      · rw [if_pos hc] at h
        exact ⟨_, _, _, (Option.some.inj h).symm⟩
      · rw [if_neg hc] at h
        obtain ⟨a, c, l, hac⟩ := ih _ e h
        exact ⟨a, c, l, hac⟩

/-- Method `CompleteTask` consumes readings and sleeps, and changes nothing else. -/
theorem CompleteTask_frame (H : Header) (timeout fuel : Nat) (d e : Dev)
    (h : CompleteTask H timeout fuel d = some e) :
    ∃ a c s l, e = { d with auxIn := a, clock := c, slept := s, calls := l } := by
  unfold CompleteTask at h
  simp only [millis] at h
  rw [Option.map_eq_some'] at h
  obtain ⟨x, hx, hxe⟩ := h
  by_cases hA : d._AUX = -1
  · rw [if_neg (not_not.mpr hA)] at hx
    split_ifs at hx
    · rw [← hxe, ← Option.some.inj hx]
      exact ⟨_, _, _, _, rfl⟩
    · rw [← hxe, ← Option.some.inj hx]
      exact ⟨_, _, _, _, rfl⟩
  · rw [if_pos hA] at hx
    obtain ⟨a, c, l, hac⟩ := pollAux_frame _ _ _ _ _ hx
    rw [← hxe, hac]
    exact ⟨_, _, _, _, rfl⟩

/-- The condition `waitEnds` only looks at the status-line configuration and the readings. -/
theorem waitEnds_sameEnv (timeout n : Nat) (a b : Dev) (h : sameEnv a b)
    (hb : waitEnds timeout b n) : waitEnds timeout a n := by
  obtain ⟨e1, e2, e3⟩ := h
  unfold waitEnds at hb ⊢
  rw [e1, e2, e3]
  exact hb

/-! ## Struct transfer -/

/-- With an 8-bit `_buf` the count 300 is stored as 44: a complete transfer of
300 bytes is reported as failed. The width of `_buf` matters. -/
theorem SendStruct_narrow_buf :
    (SendStruct { sampleHeader with bufBits := 8 } (List.replicate 300 0) 300 300 1 idle).map
      (fun r => (r.1, r.2._buf)) = some (false, 44) := by
  decide

/-- C12. When `_buf` is at least 16 bits wide: for every requested size `n`
(a `uint16_t`) and every count `c ≤ n` that the transport's `write` returns,
`SendStruct`, whenever it returns, returns `true` if and only if `c = n`; and
`GetStruct`, whenever it returns, has read min(n, bytes available) bytes and
returns `true` if and only if that count is `n`. Both return once the wait of
`CompleteTask(1000)` ends. -/
theorem C12_struct_transfer (H : Header) (hw : 16 ≤ H.bufBits) (data : List Nat) (n c : Nat)
    (d : Dev) (hn : n < 65536) (hc : c ≤ n) :
    (∀ fuel r, SendStruct H data n c fuel d = some r → (r.1 = true ↔ c = n)) ∧
    (∀ fuel r, GetStruct H n fuel d = some r →
      r.2.1.length = min n (d.rx.length + d.incoming.length) ∧
      (r.1 = true ↔ r.2.1.length = n)) ∧
    (∀ k, waitEnds 1000 d k →
      (∃ r, SendStruct H data n c (k + 1) d = some r) ∧
      (∃ r, GetStruct H n (k + 1) d = some r)) := by
  have hpow : 65536 ≤ 2 ^ H.bufBits := by
    have := Nat.pow_le_pow_right (show 0 < 2 by norm_num) hw
    simpa using this
  have hu : u16 n = n := Nat.mod_eq_of_lt hn
  refine ⟨?_, ?_, ?_⟩
  · intro fuel r hr
    unfold SendStruct at hr
    rw [Option.map_eq_some'] at hr
    obtain ⟨e, he, her⟩ := hr
    obtain ⟨a, k, s, l, hf⟩ := CompleteTask_frame _ _ _ _ _ he
    have hbuf : e._buf = c := by
      rw [hf]
      exact Nat.mod_eq_of_lt (by omega)
    rw [← her, hbuf, hu]
    exact decide_eq_true_iff
  · intro fuel r hr
    unfold GetStruct at hr
    rw [Option.map_eq_some'] at hr
    obtain ⟨e, he, her⟩ := hr
    obtain ⟨a, k, s, l, hf⟩ := CompleteTask_frame _ _ _ _ _ he
    have hlen : (recvBytes (u16 n) d).1.length = min n (d.rx.length + d.incoming.length) := by
      simp only [recvBytes, hu, List.length_map, List.length_take, List.length_append]
    have hbuf : e._buf = (recvBytes (u16 n) d).1.length := by
      rw [hf]
      show (recvBytes (u16 n) d).1.length % 2 ^ H.bufBits = _
      apply Nat.mod_eq_of_lt
      rw [hlen]
      have := Nat.min_le_left n (d.rx.length + d.incoming.length)
      omega
    rw [← her]
    refine ⟨hlen, ?_⟩
    show decide (e._buf = u16 n) = true ↔ (recvBytes (u16 n) d).1.length = n
    rw [hbuf, hu]
    exact decide_eq_true_iff
  · intro k hk
    constructor
    · obtain ⟨e, he⟩ := CompleteTask_returns H 1000 k
        { d with _buf := c % 2 ^ H.bufBits, tx := d.tx ++ (data.take c).map u8,
                 calls := d.calls ++ [Event.sentBytes ((data.take c).map u8)] }
        (waitEnds_sameEnv _ _ _ d ⟨rfl, rfl, rfl⟩ hk)
      refine ⟨(decide (e._buf = u16 n), e), ?_⟩
      unfold SendStruct
      simp only []
      rw [he]
      rfl
    · obtain ⟨e, he⟩ := CompleteTask_returns H 1000 k
        { (recvBytes (u16 n) d).2 with _buf := (recvBytes (u16 n) d).1.length % 2 ^ H.bufBits }
        (waitEnds_sameEnv _ _ _ d ⟨rfl, rfl, rfl⟩ hk)
      refine ⟨(decide (e._buf = u16 n), (recvBytes (u16 n) d).1, e), ?_⟩
      unfold GetStruct
      simp only []
      rw [he]
      rfl

/-- C12, evaluated for a request of 4 bytes: a write that took 3 bytes fails,
and so does a read that found 3 bytes; the status line reads high at once. -/
theorem C12_struct_transfer_witness :
    16 ≤ sampleHeader.bufBits ∧ waitEnds 1000 { idle with rx := [1, 2], incoming := [3] } 0 ∧
    (∀ fuel r, SendStruct sampleHeader [9, 8, 7, 6] 4 3 fuel
        { idle with rx := [1, 2], incoming := [3] } = some r → (r.1 = true ↔ 3 = 4)) ∧
    (∃ r, GetStruct sampleHeader 4 1 { idle with rx := [1, 2], incoming := [3] } = some r) :=
  have h := C12_struct_transfer sampleHeader (by decide) [9, 8, 7, 6] 4 3
    { idle with rx := [1, 2], incoming := [3] } (by decide) (by decide)
  ⟨by decide, Or.inr (Or.inl rfl), h.1, (h.2.2 0 (Or.inr (Or.inl rfl))).2⟩

/-! ## Saving the parameters -/

/-- Relation `sameParams` is transitive. -/
theorem sameParams_trans {a b c : Dev} (h1 : sameParams a b) (h2 : sameParams b c) :
    sameParams a c := by
  unfold sameParams at *
  obtain ⟨a1, a2, a3, a4, a5, a6, a7, a8, a9, a10, a11, a12, a13, a14, a15, a16, a17, a18⟩ := h1
  obtain ⟨b1, b2, b3, b4, b5, b6, b7, b8, b9, b10, b11, b12, b13, b14, b15, b16, b17, b18⟩ := h2
  exact ⟨a1.trans b1, a2.trans b2, a3.trans b3, a4.trans b4, a5.trans b5, a6.trans b6,
    a7.trans b7, a8.trans b8, a9.trans b9, a10.trans b10, a11.trans b11, a12.trans b12,
    a13.trans b13, a14.trans b14, a15.trans b15, a16.trans b16, a17.trans b17, a18.trans b18⟩

/-- Function `SetMode` leaves the stored parameters alone. -/
theorem SetMode_sameParams (H : Header) (m : Nat) (d : Dev) : sameParams (SetMode H m d) d := by
  obtain ⟨p, s, c, h⟩ := SetMode_eq H m d
  rw [h]
  exact ⟨rfl, rfl, rfl, rfl, rfl, rfl, rfl, rfl, rfl, rfl, rfl, rfl, rfl, rfl, rfl, rfl, rfl, rfl⟩

/-- Function `delay` leaves the stored parameters alone. -/
theorem delay_sameParams (ms : Nat) (d : Dev) : sameParams (delay ms d) d :=
  ⟨rfl, rfl, rfl, rfl, rfl, rfl, rfl, rfl, rfl, rfl, rfl, rfl, rfl, rfl, rfl, rfl, rfl, rfl⟩

/-- Function `write` leaves the stored parameters alone. -/
theorem write_sameParams (b : Nat) (d : Dev) : sameParams (write b d) d :=
  ⟨rfl, rfl, rfl, rfl, rfl, rfl, rfl, rfl, rfl, rfl, rfl, rfl, rfl, rfl, rfl, rfl, rfl, rfl⟩

/-- The write block of `SaveParameters` leaves the stored parameters alone. -/
theorem writeParams_sameParams (retention : Nat) (d : Dev) :
    sameParams (writeParams retention d) d := by
  unfold writeParams
  exact sameParams_trans (delay_sameParams _ _) (sameParams_trans (write_sameParams _ _)
    (sameParams_trans (write_sameParams _ _) (sameParams_trans (write_sameParams _ _)
    (sameParams_trans (write_sameParams _ _) (sameParams_trans (write_sameParams _ _)
    (write_sameParams _ _))))))

/-- The write block of `SaveParameters` hands six bytes to the transport, in order. -/
theorem writeParams_tx (retention : Nat) (d : Dev) :
    (writeParams retention d).tx = d.tx ++ [u8 retention, u8 d._AddressHigh, u8 d._AddressLow,
      u8 d._Speed, u8 d._Channel, u8 d._Options] := by
  simp only [writeParams, write, delay, List.append_assoc, List.singleton_append,
    List.cons_append, List.nil_append]

/-- The send block of `SaveParameters` leaves the stored parameters alone. -/
theorem sendParams_sameParams (H : Header) (retention : Nat) (d : Dev) :
    sameParams (sendParams H retention d) d := by
  rw [sendParams_eq]
  exact sameParams_trans (writeParams_sameParams _ _) (sameParams_trans (delay_sameParams _ _)
    (sameParams_trans (ClearBuffer_effect _).2.2.2 (SetMode_sameParams _ _ _)))

/-- The send block of `SaveParameters` hands six bytes to the transport, in order. -/
theorem sendParams_tx (H : Header) (retention : Nat) (d : Dev) :
    (sendParams H retention d).tx = d.tx ++ [u8 retention, u8 d._AddressHigh, u8 d._AddressLow,
      u8 d._Speed, u8 d._Channel, u8 d._Options] := by
  obtain ⟨-, h2, h3, h4, h5, h6, -⟩ := sameParams_trans (delay_sameParams 5
    (ClearBuffer (SetMode H H.MODE_PROGRAM d))) (sameParams_trans
    (ClearBuffer_effect (SetMode H H.MODE_PROGRAM d)).2.2.2 (SetMode_sameParams H H.MODE_PROGRAM d))
  have ht : (delay 5 (ClearBuffer (SetMode H H.MODE_PROGRAM d))).tx = d.tx := SetMode_tx _ _ _
  rw [sendParams_eq, writeParams_tx, h2, h3, h4, h5, h6, ht]

/-- Method `SaveParameters` returns once its wait for the module ends. -/
theorem SaveParameters_returns (H : Header) (retention n : Nat) (d : Dev)
    (h : waitEnds 4000 d n) : ∃ e, SaveParameters H retention (n + 1) d = some e := by
  obtain ⟨x, hx⟩ := CompleteTask_returns H 4000 n _ (waitEnds_sendParams H retention 4000 n d h)
  refine ⟨SetMode H H.MODE_NORMAL x, ?_⟩
  unfold SaveParameters
  rw [hx]
  rfl

/-- C13. For every retention byte and every state whose address, speed,
channel and options members are bytes, `SaveParameters`, whenever it returns,
has appended to the outbound stream exactly the six bytes [retention,
addressHigh, addressLow, speedByte, channel, optionsByte], in that order, and
has left every stored parameter as it was; it returns once its wait ends. -/
theorem C13_SaveParameters_wire (H : Header) (retention : Nat) (d : Dev)
    (hr : retention < 256) (hH : d._AddressHigh < 256) (hL : d._AddressLow < 256)
    (hS : d._Speed < 256) (hC : d._Channel < 256) (hO : d._Options < 256) :
    (∀ fuel e, SaveParameters H retention fuel d = some e →
      e.tx = d.tx ++ [retention, d._AddressHigh, d._AddressLow, d._Speed, d._Channel, d._Options]
      ∧ sameParams e d) ∧
    (∀ n, waitEnds 4000 d n → ∃ e, SaveParameters H retention (n + 1) d = some e) := by
  refine ⟨?_, fun n hn => SaveParameters_returns H retention n d hn⟩
  intro fuel e he
  unfold SaveParameters at he
  rw [Option.map_eq_some'] at he
  obtain ⟨x, hx, hxe⟩ := he
  obtain ⟨a, c, s, l, hf⟩ := CompleteTask_frame _ _ _ _ _ hx
  have hxt : x.tx = (sendParams H retention d).tx := by rw [hf]
  have hxp : sameParams x (sendParams H retention d) := by
    rw [hf]
    exact ⟨rfl, rfl, rfl, rfl, rfl, rfl, rfl, rfl, rfl, rfl, rfl, rfl, rfl, rfl, rfl, rfl, rfl, rfl⟩
  rw [← hxe]
  constructor
  · rw [SetMode_tx, hxt, sendParams_tx]
    unfold u8
    rw [Nat.mod_eq_of_lt hr, Nat.mod_eq_of_lt hH, Nat.mod_eq_of_lt hL, Nat.mod_eq_of_lt hS,
      Nat.mod_eq_of_lt hC, Nat.mod_eq_of_lt hO]
  · exact sameParams_trans (SetMode_sameParams _ _ _)
      (sameParams_trans hxp (sendParams_sameParams _ _ _))

/-- C13, evaluated on the device `configured` with retention byte 0xC0. -/
theorem C13_SaveParameters_wire_witness :
    waitEnds 4000 configured 0 ∧
    (∀ fuel e, SaveParameters sampleHeader 0xC0 fuel configured = some e →
      e.tx = configured.tx ++ [0xC0, configured._AddressHigh, configured._AddressLow,
        configured._Speed, configured._Channel, configured._Options]
      ∧ sameParams e configured) ∧
    (∃ e, SaveParameters sampleHeader 0xC0 1 configured = some e) :=
  have h := C13_SaveParameters_wire sampleHeader 0xC0 configured (by decide) (by decide)
    (by decide) (by decide) (by decide) (by decide)
  ⟨Or.inr (Or.inl rfl), h.1, h.2 0 (Or.inr (Or.inl rfl))⟩

/-! ## Mode lines -/

/-- The sleeps of `SetMode`. -/
theorem SetMode_slept (H : Header) (m : Nat) (d : Dev) :
    (SetMode H m d).slept = d.slept ++ [H.PIN_RECOVER, H.PIN_RECOVER] := by
  unfold SetMode
  simp only [delay, digitalWrite]
  split_ifs <;> simp only [List.append_assoc, List.singleton_append]

/-- Function `SetMode(MODE_WAKEUP)` drives M0 high and M1 low. -/
theorem SetMode_wakeup (H : Header) (hM : modesDistinct H) (d : Dev) (hp : d._M0 ≠ d._M1) :
    linesAre true false (SetMode H H.MODE_WAKEUP d) := by
  obtain ⟨-, h2, -, -, n1, -, -, -, -, -⟩ := hM
  have hu : u8 H.MODE_WAKEUP = H.MODE_WAKEUP := Nat.mod_eq_of_lt h2
  simp only [SetMode, hu, if_neg (Ne.symm n1), if_true, delay, digitalWrite, linesAre]
  constructor <;> simp [hp]

/-- Function `SetMode(MODE_POWERDOWN)` drives M0 low and M1 high. -/
theorem SetMode_powerdown (H : Header) (hM : modesDistinct H) (d : Dev) (hp : d._M0 ≠ d._M1) :
    linesAre false true (SetMode H H.MODE_POWERDOWN d) := by
  obtain ⟨-, -, h3, -, -, n2, -, n4, -, -⟩ := hM
  have hu : u8 H.MODE_POWERDOWN = H.MODE_POWERDOWN := Nat.mod_eq_of_lt h3
  simp only [SetMode, hu, if_neg (Ne.symm n2), if_neg (Ne.symm n4), if_true, delay, digitalWrite,
    linesAre]
  constructor <;> simp [hp]

/-- The calls of `SetMode(MODE_NORMAL)`, in order. -/
theorem SetMode_normal_calls (H : Header) (hN : H.MODE_NORMAL < 256) (d : Dev) :
    (SetMode H H.MODE_NORMAL d).calls = d.calls ++ [Event.sleep H.PIN_RECOVER,
      Event.pin d._M0 false, Event.pin d._M1 false, Event.sleep H.PIN_RECOVER] := by
  have hu : u8 H.MODE_NORMAL = H.MODE_NORMAL := Nat.mod_eq_of_lt hN
  simp only [SetMode, hu, if_true, delay, digitalWrite, List.append_assoc, List.singleton_append, List.cons_append,
    List.nil_append]

/-- The calls of `SetMode(MODE_WAKEUP)`, in order. -/
theorem SetMode_wakeup_calls (H : Header) (hM : modesDistinct H) (d : Dev) :
    (SetMode H H.MODE_WAKEUP d).calls = d.calls ++ [Event.sleep H.PIN_RECOVER,
      Event.pin d._M0 true, Event.pin d._M1 false, Event.sleep H.PIN_RECOVER] := by
  obtain ⟨-, h2, -, -, n1, -, -, -, -, -⟩ := hM
  have hu : u8 H.MODE_WAKEUP = H.MODE_WAKEUP := Nat.mod_eq_of_lt h2
  simp only [SetMode, hu, if_neg (Ne.symm n1), if_true, delay, digitalWrite, List.append_assoc,
    List.singleton_append, List.cons_append,
    List.nil_append]

/-- The calls of `SetMode(MODE_POWERDOWN)`, in order. -/
theorem SetMode_powerdown_calls (H : Header) (hM : modesDistinct H) (d : Dev) :
    (SetMode H H.MODE_POWERDOWN d).calls = d.calls ++ [Event.sleep H.PIN_RECOVER,
      Event.pin d._M0 false, Event.pin d._M1 true, Event.sleep H.PIN_RECOVER] := by
  obtain ⟨-, -, h3, -, -, n2, -, n4, -, -⟩ := hM
  have hu : u8 H.MODE_POWERDOWN = H.MODE_POWERDOWN := Nat.mod_eq_of_lt h3
  simp only [SetMode, hu, if_neg (Ne.symm n2), if_neg (Ne.symm n4), if_true, delay, digitalWrite,
    List.append_assoc, List.singleton_append, List.cons_append,
    List.nil_append]

/-- The calls of `SetMode(MODE_PROGRAM)`, in order. -/
theorem SetMode_program_calls (H : Header) (hM : modesDistinct H) (d : Dev) :
    (SetMode H H.MODE_PROGRAM d).calls = d.calls ++ [Event.sleep H.PIN_RECOVER,
      Event.pin d._M0 true, Event.pin d._M1 true, Event.sleep H.PIN_RECOVER] := by
  obtain ⟨-, -, -, h4, -, -, n3, -, n5, n6⟩ := hM
  have hu : u8 H.MODE_PROGRAM = H.MODE_PROGRAM := Nat.mod_eq_of_lt h4
  simp only [SetMode, hu, if_neg (Ne.symm n3), if_neg (Ne.symm n5), if_neg (Ne.symm n6), if_true,
    delay, digitalWrite, List.append_assoc, List.singleton_append, List.cons_append,
    List.nil_append]

/-- For every argument, `SetMode` sleeps `PIN_RECOVER` first and last, and
between the two sleeps it only writes pins. -/
theorem SetMode_calls_shape (H : Header) (m : Nat) (d : Dev) :
    ∃ w, (SetMode H m d).calls
        = d.calls ++ [Event.sleep H.PIN_RECOVER] ++ w ++ [Event.sleep H.PIN_RECOVER] ∧
      ∀ ev ∈ w, ∃ pn lv, ev = Event.pin pn lv := by
  unfold SetMode
  simp only [delay, digitalWrite]
  split_ifs
  · exact ⟨[Event.pin d._M0 false, Event.pin d._M1 false],
      by simp only [List.append_assoc, List.singleton_append, List.cons_append, List.nil_append],
      by intro ev hev; simp only [List.mem_cons, List.mem_singleton, List.not_mem_nil,
           or_false] at hev; rcases hev with h | h <;> exact ⟨_, _, h⟩⟩
  · exact ⟨[Event.pin d._M0 true, Event.pin d._M1 false],
      by simp only [List.append_assoc, List.singleton_append, List.cons_append, List.nil_append],
      by intro ev hev; simp only [List.mem_cons, List.mem_singleton, List.not_mem_nil,
           or_false] at hev; rcases hev with h | h <;> exact ⟨_, _, h⟩⟩
  · exact ⟨[Event.pin d._M0 false, Event.pin d._M1 true],
      by simp only [List.append_assoc, List.singleton_append, List.cons_append, List.nil_append],
      by intro ev hev; simp only [List.mem_cons, List.mem_singleton, List.not_mem_nil,
           or_false] at hev; rcases hev with h | h <;> exact ⟨_, _, h⟩⟩
  · exact ⟨[Event.pin d._M0 true, Event.pin d._M1 true],
      by simp only [List.append_assoc, List.singleton_append, List.cons_append, List.nil_append],
      by intro ev hev; simp only [List.mem_cons, List.mem_singleton, List.not_mem_nil,
           or_false] at hev; rcases hev with h | h <;> exact ⟨_, _, h⟩⟩
  · exact ⟨[], by simp only [List.append_nil], by intro ev hev; cases hev⟩

/-- C14. With mode macros that are distinct `uint8_t` values and M0, M1 wired
to different pins: after `SetMode(m)` the (M0, M1) levels are (low, low) for
Normal, (high, low) for Wakeup, (low, high) for Powerdown and (high, high) for
Program, and the calls made are, in this order, `delay(PIN_RECOVER)`, the
write of M0, the write of M1, `delay(PIN_RECOVER)`: one sleep before the lines
are driven and one after. For every argument the call sleeps `PIN_RECOVER`
twice, first and last, with nothing but pin writes in between. -/
theorem C14_SetMode_lines (H : Header) (hM : modesDistinct H) (d : Dev) (hp : d._M0 ≠ d._M1) :
    (linesAre false false (SetMode H H.MODE_NORMAL d) ∧
      (SetMode H H.MODE_NORMAL d).calls = d.calls ++ [Event.sleep H.PIN_RECOVER,
        Event.pin d._M0 false, Event.pin d._M1 false, Event.sleep H.PIN_RECOVER]) ∧
    (linesAre true false (SetMode H H.MODE_WAKEUP d) ∧
      (SetMode H H.MODE_WAKEUP d).calls = d.calls ++ [Event.sleep H.PIN_RECOVER,
        Event.pin d._M0 true, Event.pin d._M1 false, Event.sleep H.PIN_RECOVER]) ∧
    (linesAre false true (SetMode H H.MODE_POWERDOWN d) ∧
      (SetMode H H.MODE_POWERDOWN d).calls = d.calls ++ [Event.sleep H.PIN_RECOVER,
        Event.pin d._M0 false, Event.pin d._M1 true, Event.sleep H.PIN_RECOVER]) ∧
    (linesAre true true (SetMode H H.MODE_PROGRAM d) ∧
      (SetMode H H.MODE_PROGRAM d).calls = d.calls ++ [Event.sleep H.PIN_RECOVER,
        Event.pin d._M0 true, Event.pin d._M1 true, Event.sleep H.PIN_RECOVER]) ∧
    ∀ m, (SetMode H m d).slept = d.slept ++ [H.PIN_RECOVER, H.PIN_RECOVER] ∧
      ∃ w, (SetMode H m d).calls
          = d.calls ++ [Event.sleep H.PIN_RECOVER] ++ w ++ [Event.sleep H.PIN_RECOVER] ∧
        ∀ ev ∈ w, ∃ pn lv, ev = Event.pin pn lv :=
  ⟨⟨SetMode_normal_low H hM.1 d, SetMode_normal_calls H hM.1 d⟩,
    ⟨SetMode_wakeup H hM d hp, SetMode_wakeup_calls H hM d⟩,
    ⟨SetMode_powerdown H hM d hp, SetMode_powerdown_calls H hM d⟩,
    ⟨SetMode_program_high H hM d, SetMode_program_calls H hM d⟩,
    fun m => ⟨SetMode_slept H m d, SetMode_calls_shape H m d⟩⟩

/-- C14, evaluated on the idle device (M0 on pin 4, M1 on pin 5). -/
theorem C14_SetMode_lines_witness :
    modesDistinct sampleHeader ∧ idle._M0 ≠ idle._M1 ∧
    linesAre false false (SetMode sampleHeader sampleHeader.MODE_NORMAL idle) ∧
    linesAre true false (SetMode sampleHeader sampleHeader.MODE_WAKEUP idle) ∧
    linesAre false true (SetMode sampleHeader sampleHeader.MODE_POWERDOWN idle) ∧
    linesAre true true (SetMode sampleHeader sampleHeader.MODE_PROGRAM idle) ∧
    (SetMode sampleHeader sampleHeader.MODE_WAKEUP idle).calls
      = [Event.sleep 20, Event.pin 4 true, Event.pin 5 false, Event.sleep 20] ∧
    (SetMode sampleHeader sampleHeader.MODE_PROGRAM idle).slept = [20, 20] :=
  have hM : modesDistinct sampleHeader := by
    unfold modesDistinct
    decide
  have h := C14_SetMode_lines sampleHeader hM idle (by decide)
  ⟨hM, by decide, h.1.1, h.2.1.1, h.2.2.1.1, h.2.2.2.1.1, h.2.1.2,
    (h.2.2.2.2 sampleHeader.MODE_PROGRAM).1⟩

/-! ## The wait of CompleteTask -/

/-- C15 at its failing input. With the status line always low, the clock at
4294963296 (2^32 - 4000) on entry and at every later reading, and a timeout of
4000 ms, the sum of entry time and timeout is exactly 0 modulo 2^32, so
`CompleteTask` resets its start value to 0 and leaves the loop at the first
poll (one unit of fuel is enough), when 0 ms have elapsed since entry. One
millisecond earlier (entry at 4294963295) the same frozen clock keeps the loop
running. -/
theorem C15_exact_wrap_exits_at_once :
    u32 (4294963296 + 4000) = 0 ∧
    (CompleteTask sampleHeader 4000 1
      { idle with auxIn := fun _ => false, clock := fun _ => 4294963296 }).isSome = true ∧
    u32 (4294963296 + 4294967296 - 4294963296) = 0 ∧ ¬ (4000 < 0) ∧
    (pollAux 4000 0 1
      { idle with auxIn := fun _ => false, clock := fun _ => 4294963296 }).isSome = true ∧
    (pollAux 4000 4294963296 5
      { idle with auxIn := fun _ => false, clock := fun _ => 4294963296 }).isSome = false ∧
    (CompleteTask sampleHeader 4000 5
      { idle with auxIn := fun _ => false, clock := fun _ => 4294963295 }).isSome = false := by
  decide

/-! ## No status line -/

/-- Method `CompleteTask` without a status line: one clock reading, then the
fixed sleeps, whatever the fuel. -/
theorem CompleteTask_no_aux (H : Header) (T fuel : Nat) (d : Dev) (hA : d._AUX = -1)
    (hT : T < 4294967296) :
    CompleteTask H T fuel d
      = some (delay H.AUX_PIN_RECOVER (delay (max T 1000) (millis d).2)) := by
  have hu : u32 T = T := Nat.mod_eq_of_lt hT
  unfold CompleteTask
  simp only [hu]
  have hA2 : (millis d).2._AUX = -1 := hA
  rw [if_neg (not_not.mpr hA2)]
  by_cases h : T < 1000
  · rw [if_pos h, Nat.max_eq_right (Nat.le_of_lt h)]
    rfl
  · rw [if_neg h, Nat.max_eq_left (Nat.le_of_not_lt h)]
    rfl

/-- The constructor called with `-1` (255 as a `uint8_t`) for the status pin
stores -1 in an `int8_t` member `_AUX`. -/
theorem EBYTE_no_aux (H : Header) (hS : H.auxSigned = true) (m0 m1 : Nat) (d : Dev) :
    (EBYTE H m0 m1 255 d)._AUX = -1 := by
  simp only [EBYTE, toAUX, hS, u8]
  decide

/-- With an `_AUX` member that is not `int8_t` the constructor stores 255 for
the argument `-1`, which `CompleteTask` does not take for "no status line". -/
theorem EBYTE_unsigned_aux :
    (EBYTE { sampleHeader with auxSigned := false } 4 5 255 idle)._AUX = 255 := by
  decide

/-- C16. When `_AUX` is an `int8_t` member and the object is constructed with
`-1` (255 as a `uint8_t`) as status pin, `_AUX` is -1 and `CompleteTask(T)`,
for every `T` and whatever the fuel, returns without reading the status line,
after sleeping max(T, 1000) ms and then `AUX_PIN_RECOVER` ms; `CompleteTask(500)`
and `CompleteTask(1000)` return the same state. -/
theorem C16_no_status_line (H : Header) (hS : H.auxSigned = true) (m0 m1 T fuel : Nat)
    (d : Dev) (hT : T < 4294967296) :
    (EBYTE H m0 m1 255 d)._AUX = -1 ∧
    (∃ e, CompleteTask H T fuel (EBYTE H m0 m1 255 d) = some e ∧
      e.slept = d.slept ++ [max T 1000, H.AUX_PIN_RECOVER] ∧ e.auxIn = d.auxIn) ∧
    CompleteTask H 500 fuel (EBYTE H m0 m1 255 d)
      = CompleteTask H 1000 fuel (EBYTE H m0 m1 255 d) := by
  have hA := EBYTE_no_aux H hS m0 m1 d
  refine ⟨hA, ⟨_, CompleteTask_no_aux H T fuel _ hA hT, ?_, rfl⟩, ?_⟩
  · simp only [delay, millis, EBYTE, List.append_assoc, List.singleton_append]
  · rw [CompleteTask_no_aux H 500 fuel _ hA (by norm_num),
      CompleteTask_no_aux H 1000 fuel _ hA (by norm_num)]
    rfl

/-- C16, evaluated for a timeout of 500 ms with no fuel at all. -/
theorem C16_no_status_line_witness :
    sampleHeader.auxSigned = true ∧
    (EBYTE sampleHeader 4 5 255 idle)._AUX = -1 ∧
    (∃ e, CompleteTask sampleHeader 500 0 (EBYTE sampleHeader 4 5 255 idle) = some e ∧
      e.slept = idle.slept ++ [max 500 1000, sampleHeader.AUX_PIN_RECOVER] ∧
      e.auxIn = idle.auxIn) :=
  have h := C16_no_status_line sampleHeader rfl 4 5 500 0 idle (by decide)
  ⟨rfl, h.1, h.2.1⟩

/-! ## Sub-field setters after a read -/

/-- Repacking a byte with one sub-field replaced, as `SetAirDataRate` does. -/
theorem SetAirDataRate_byte (v : Nat) (hv : v < 8) : ∀ b, b < 256 →
    u8 (((u8 ((b &&& 0xC0) >>> 6) &&& 0xFF) <<< 6) ||| ((u8 ((b &&& 0x38) >>> 3) &&& 0xFF) <<< 3) ||| (u8 v &&& 0xFF)) = (b &&& 0xF8) ||| v := by
  interval_cases v <;> decide

/-- Repacking a byte with one sub-field replaced, as `SetParityBit` does. -/
theorem SetParityBit_byte (v : Nat) (hv : v < 4) : ∀ b, b < 256 →
    u8 (((u8 v &&& 0xFF) <<< 6) ||| ((u8 ((b &&& 0x38) >>> 3) &&& 0xFF) <<< 3) ||| (u8 (b &&& 0x07) &&& 0xFF)) = (b &&& 0x3F) ||| (v <<< 6) := by
  interval_cases v <;> decide

/-- Repacking a byte with one sub-field replaced, as `SetUARTBaudRate` does. -/
theorem SetUARTBaudRate_byte (v : Nat) (hv : v < 8) : ∀ b, b < 256 →
    u8 (((u8 ((b &&& 0xC0) >>> 6) &&& 0xFF) <<< 6) ||| ((u8 v &&& 0xFF) <<< 3) ||| (u8 (b &&& 0x07) &&& 0xFF)) = (b &&& 0xC7) ||| (v <<< 3) := by
  interval_cases v <;> decide

/-- Repacking a byte with one sub-field replaced, as `SetTransmissionMode` does. -/
theorem SetTransmissionMode_byte (v : Nat) (hv : v < 2) : ∀ b, b < 256 →
    u8 (((u8 v &&& 0xFF) <<< 7) ||| ((u8 ((b &&& 0x40) >>> 6) &&& 0xFF) <<< 6) ||| ((u8 ((b &&& 0x38) >>> 3) &&& 0xFF) <<< 3)
      ||| ((u8 ((b &&& 0x07) >>> 2) &&& 0xFF) <<< 2) ||| (u8 (b &&& 0x03) &&& 0b11)) = (b &&& 0x7F) ||| (v <<< 7) := by
  interval_cases v <;> decide

/-- Repacking a byte with one sub-field replaced, as `SetPullupMode` does. -/
theorem SetPullupMode_byte (v : Nat) (hv : v < 2) : ∀ b, b < 256 →
    u8 (((u8 ((b &&& 0x80) >>> 7) &&& 0xFF) <<< 7) ||| ((u8 v &&& 0xFF) <<< 6) ||| ((u8 ((b &&& 0x38) >>> 3) &&& 0xFF) <<< 3)
      ||| ((u8 ((b &&& 0x07) >>> 2) &&& 0xFF) <<< 2) ||| (u8 (b &&& 0x03) &&& 0b11)) = (b &&& 0xBF) ||| (v <<< 6) := by
  interval_cases v <;> decide

/-- Repacking a byte with one sub-field replaced, as `SetWORTIming` does. -/
theorem SetWORTIming_byte (v : Nat) (hv : v < 8) : ∀ b, b < 256 →
    u8 (((u8 ((b &&& 0x80) >>> 7) &&& 0xFF) <<< 7) ||| ((u8 ((b &&& 0x40) >>> 6) &&& 0xFF) <<< 6) ||| ((u8 v &&& 0xFF) <<< 3)
      ||| ((u8 ((b &&& 0x07) >>> 2) &&& 0xFF) <<< 2) ||| (u8 (b &&& 0x03) &&& 0b11)) = (b &&& 0xC7) ||| (v <<< 3) := by
  interval_cases v <;> decide

/-- Repacking a byte with one sub-field replaced, as `SetFECMode` does. -/
theorem SetFECMode_byte (v : Nat) (hv : v < 2) : ∀ b, b < 256 →
    u8 (((u8 ((b &&& 0x80) >>> 7) &&& 0xFF) <<< 7) ||| ((u8 ((b &&& 0x40) >>> 6) &&& 0xFF) <<< 6) ||| ((u8 ((b &&& 0x38) >>> 3) &&& 0xFF) <<< 3)
      ||| ((u8 v &&& 0xFF) <<< 2) ||| (u8 (b &&& 0x03) &&& 0b11)) = (b &&& 0xFB) ||| (v <<< 2) := by
  interval_cases v <;> decide

/-- Repacking a byte with one sub-field replaced, as `SetTransmitPower` does. -/
theorem SetTransmitPower_byte (v : Nat) (hv : v < 4) : ∀ b, b < 256 →
    u8 (((u8 ((b &&& 0x80) >>> 7) &&& 0xFF) <<< 7) ||| ((u8 ((b &&& 0x40) >>> 6) &&& 0xFF) <<< 6) ||| ((u8 ((b &&& 0x38) >>> 3) &&& 0xFF) <<< 3)
      ||| ((u8 ((b &&& 0x07) >>> 2) &&& 0xFF) <<< 2) ||| (u8 v &&& 0b11)) = (b &&& 0xFC) ||| v := by
  interval_cases v <;> decide

/-- The state that `ReadParameters` returns is decoded. -/
theorem ReadParameters_Decoded (H : Header) (d : Dev) : Decoded (ReadParameters H d).2 := by
  obtain ⟨-, -, m3, -, m5, -, m7, m8, m9, m10, m11, m12, m13, m14⟩ := ReadParameters_members H d
  unfold Decoded
  rw [m7, m8, m9, m10, m11, m12, m13, m14, m3, m5]
  exact ⟨Nat.mod_lt _ (by norm_num), Nat.mod_lt _ (by norm_num), rfl, rfl, rfl, rfl, rfl, rfl,
    rfl, rfl⟩

/-- Method `SetAirDataRate` with an in-width value on a decoded state: only its own
bits of the packed byte change. -/
theorem SetAirDataRate_decoded (e : Dev) (he : Decoded e) (v : Nat) (hv : v < 8) :
    (SetAirDataRate v e)._Speed = (e._Speed &&& 0xF8) ||| v ∧
    (SetAirDataRate v e)._AirDataRate = v ∧
    (SetAirDataRate v e)._ParityBit = e._ParityBit ∧
    (SetAirDataRate v e)._UARTDataRate = e._UARTDataRate ∧
    sameOptions (SetAirDataRate v e) e ∧
    sameAddress (SetAirDataRate v e) e := by
  obtain ⟨hs, ho, hp, hu, ha, ht, hpu, hw, hf, hpw⟩ := he
  refine ⟨?_, ?_, rfl, rfl, ⟨rfl, rfl, rfl, rfl, rfl, rfl⟩, ⟨rfl, rfl, rfl, rfl⟩⟩
  · show u8 (((e._ParityBit &&& 0xFF) <<< 6) ||| ((e._UARTDataRate &&& 0xFF) <<< 3) ||| (u8 v &&& 0xFF)) = _
    rw [hp, hu]
    exact SetAirDataRate_byte v hv _ hs
  · show u8 v = v
    exact Nat.mod_eq_of_lt (by omega)

/-- Method `SetParityBit` with an in-width value on a decoded state: only its own
bits of the packed byte change. -/
theorem SetParityBit_decoded (e : Dev) (he : Decoded e) (v : Nat) (hv : v < 4) :
    (SetParityBit v e)._Speed = (e._Speed &&& 0x3F) ||| (v <<< 6) ∧
    (SetParityBit v e)._ParityBit = v ∧
    (SetParityBit v e)._UARTDataRate = e._UARTDataRate ∧
    (SetParityBit v e)._AirDataRate = e._AirDataRate ∧
    sameOptions (SetParityBit v e) e ∧
    sameAddress (SetParityBit v e) e := by
  obtain ⟨hs, ho, hp, hu, ha, ht, hpu, hw, hf, hpw⟩ := he
  refine ⟨?_, ?_, rfl, rfl, ⟨rfl, rfl, rfl, rfl, rfl, rfl⟩, ⟨rfl, rfl, rfl, rfl⟩⟩
  · show u8 (((u8 v &&& 0xFF) <<< 6) ||| ((e._UARTDataRate &&& 0xFF) <<< 3) ||| (e._AirDataRate &&& 0xFF)) = _
    rw [hu, ha]
    exact SetParityBit_byte v hv _ hs
  · show u8 v = v
    exact Nat.mod_eq_of_lt (by omega)

/-- Method `SetUARTBaudRate` with an in-width value on a decoded state: only its own
bits of the packed byte change. -/
theorem SetUARTBaudRate_decoded (e : Dev) (he : Decoded e) (v : Nat) (hv : v < 8) :
    (SetUARTBaudRate v e)._Speed = (e._Speed &&& 0xC7) ||| (v <<< 3) ∧
    (SetUARTBaudRate v e)._UARTDataRate = v ∧
    (SetUARTBaudRate v e)._ParityBit = e._ParityBit ∧
    (SetUARTBaudRate v e)._AirDataRate = e._AirDataRate ∧
    sameOptions (SetUARTBaudRate v e) e ∧
    sameAddress (SetUARTBaudRate v e) e := by
  obtain ⟨hs, ho, hp, hu, ha, ht, hpu, hw, hf, hpw⟩ := he
  refine ⟨?_, ?_, rfl, rfl, ⟨rfl, rfl, rfl, rfl, rfl, rfl⟩, ⟨rfl, rfl, rfl, rfl⟩⟩
  · show u8 (((e._ParityBit &&& 0xFF) <<< 6) ||| ((u8 v &&& 0xFF) <<< 3) ||| (e._AirDataRate &&& 0xFF)) = _
    rw [hp, ha]
    exact SetUARTBaudRate_byte v hv _ hs
  · show u8 v = v
    exact Nat.mod_eq_of_lt (by omega)

/-- Method `SetTransmissionMode` with an in-width value on a decoded state: only its own
bits of the packed byte change. -/
theorem SetTransmissionMode_decoded (e : Dev) (he : Decoded e) (v : Nat) (hv : v < 2) :
    (SetTransmissionMode v e)._Options = (e._Options &&& 0x7F) ||| (v <<< 7) ∧
    (SetTransmissionMode v e)._OptionTrans = v ∧
    (SetTransmissionMode v e)._OptionPullup = e._OptionPullup ∧
    (SetTransmissionMode v e)._OptionWakeup = e._OptionWakeup ∧
    (SetTransmissionMode v e)._OptionFEC = e._OptionFEC ∧
    (SetTransmissionMode v e)._OptionPower = e._OptionPower ∧
    sameSpeed (SetTransmissionMode v e) e ∧
    sameAddress (SetTransmissionMode v e) e := by
  obtain ⟨hs, ho, hp, hu, ha, ht, hpu, hw, hf, hpw⟩ := he
  refine ⟨?_, ?_, rfl, rfl, rfl, rfl, ⟨rfl, rfl, rfl, rfl⟩, ⟨rfl, rfl, rfl, rfl⟩⟩
  · show u8 (((u8 v &&& 0xFF) <<< 7) ||| ((e._OptionPullup &&& 0xFF) <<< 6) ||| ((e._OptionWakeup &&& 0xFF) <<< 3)
      ||| ((e._OptionFEC &&& 0xFF) <<< 2) ||| (e._OptionPower &&& 0b11)) = _
    rw [hpu, hw, hf, hpw]
    exact SetTransmissionMode_byte v hv _ ho
  · show u8 v = v
    exact Nat.mod_eq_of_lt (by omega)

/-- Method `SetPullupMode` with an in-width value on a decoded state: only its own
bits of the packed byte change. -/
theorem SetPullupMode_decoded (e : Dev) (he : Decoded e) (v : Nat) (hv : v < 2) :
    (SetPullupMode v e)._Options = (e._Options &&& 0xBF) ||| (v <<< 6) ∧
    (SetPullupMode v e)._OptionPullup = v ∧
    (SetPullupMode v e)._OptionTrans = e._OptionTrans ∧
    (SetPullupMode v e)._OptionWakeup = e._OptionWakeup ∧
    (SetPullupMode v e)._OptionFEC = e._OptionFEC ∧
    (SetPullupMode v e)._OptionPower = e._OptionPower ∧
    sameSpeed (SetPullupMode v e) e ∧
    sameAddress (SetPullupMode v e) e := by
  obtain ⟨hs, ho, hp, hu, ha, ht, hpu, hw, hf, hpw⟩ := he
  refine ⟨?_, ?_, rfl, rfl, rfl, rfl, ⟨rfl, rfl, rfl, rfl⟩, ⟨rfl, rfl, rfl, rfl⟩⟩
  · show u8 (((e._OptionTrans &&& 0xFF) <<< 7) ||| ((u8 v &&& 0xFF) <<< 6) ||| ((e._OptionWakeup &&& 0xFF) <<< 3)
      ||| ((e._OptionFEC &&& 0xFF) <<< 2) ||| (e._OptionPower &&& 0b11)) = _
    rw [ht, hw, hf, hpw]
    exact SetPullupMode_byte v hv _ ho
  · show u8 v = v
    exact Nat.mod_eq_of_lt (by omega)

/-- Method `SetWORTIming` with an in-width value on a decoded state: only its own
bits of the packed byte change. -/
theorem SetWORTIming_decoded (e : Dev) (he : Decoded e) (v : Nat) (hv : v < 8) :
    (SetWORTIming v e)._Options = (e._Options &&& 0xC7) ||| (v <<< 3) ∧
    (SetWORTIming v e)._OptionWakeup = v ∧
    (SetWORTIming v e)._OptionTrans = e._OptionTrans ∧
    (SetWORTIming v e)._OptionPullup = e._OptionPullup ∧
    (SetWORTIming v e)._OptionFEC = e._OptionFEC ∧
    (SetWORTIming v e)._OptionPower = e._OptionPower ∧
    sameSpeed (SetWORTIming v e) e ∧
    sameAddress (SetWORTIming v e) e := by
  obtain ⟨hs, ho, hp, hu, ha, ht, hpu, hw, hf, hpw⟩ := he
  refine ⟨?_, ?_, rfl, rfl, rfl, rfl, ⟨rfl, rfl, rfl, rfl⟩, ⟨rfl, rfl, rfl, rfl⟩⟩
  · show u8 (((e._OptionTrans &&& 0xFF) <<< 7) ||| ((e._OptionPullup &&& 0xFF) <<< 6) ||| ((u8 v &&& 0xFF) <<< 3)
      ||| ((e._OptionFEC &&& 0xFF) <<< 2) ||| (e._OptionPower &&& 0b11)) = _
    rw [ht, hpu, hf, hpw]
    exact SetWORTIming_byte v hv _ ho
  · show u8 v = v
    exact Nat.mod_eq_of_lt (by omega)

/-- Method `SetFECMode` with an in-width value on a decoded state: only its own
bits of the packed byte change. -/
theorem SetFECMode_decoded (e : Dev) (he : Decoded e) (v : Nat) (hv : v < 2) :
    (SetFECMode v e)._Options = (e._Options &&& 0xFB) ||| (v <<< 2) ∧
    (SetFECMode v e)._OptionFEC = v ∧
    (SetFECMode v e)._OptionTrans = e._OptionTrans ∧
    (SetFECMode v e)._OptionPullup = e._OptionPullup ∧
    (SetFECMode v e)._OptionWakeup = e._OptionWakeup ∧
    (SetFECMode v e)._OptionPower = e._OptionPower ∧
    sameSpeed (SetFECMode v e) e ∧
    sameAddress (SetFECMode v e) e := by
  obtain ⟨hs, ho, hp, hu, ha, ht, hpu, hw, hf, hpw⟩ := he
  refine ⟨?_, ?_, rfl, rfl, rfl, rfl, ⟨rfl, rfl, rfl, rfl⟩, ⟨rfl, rfl, rfl, rfl⟩⟩
  · show u8 (((e._OptionTrans &&& 0xFF) <<< 7) ||| ((e._OptionPullup &&& 0xFF) <<< 6) ||| ((e._OptionWakeup &&& 0xFF) <<< 3)
      ||| ((u8 v &&& 0xFF) <<< 2) ||| (e._OptionPower &&& 0b11)) = _
    rw [ht, hpu, hw, hpw]
    exact SetFECMode_byte v hv _ ho
  · show u8 v = v
    exact Nat.mod_eq_of_lt (by omega)

/-- Method `SetTransmitPower` with an in-width value on a decoded state: only its own
bits of the packed byte change. -/
theorem SetTransmitPower_decoded (e : Dev) (he : Decoded e) (v : Nat) (hv : v < 4) :
    (SetTransmitPower v e)._Options = (e._Options &&& 0xFC) ||| v ∧
    (SetTransmitPower v e)._OptionPower = v ∧
    (SetTransmitPower v e)._OptionTrans = e._OptionTrans ∧
    (SetTransmitPower v e)._OptionPullup = e._OptionPullup ∧
    (SetTransmitPower v e)._OptionWakeup = e._OptionWakeup ∧
    (SetTransmitPower v e)._OptionFEC = e._OptionFEC ∧
    sameSpeed (SetTransmitPower v e) e ∧
    sameAddress (SetTransmitPower v e) e := by
  obtain ⟨hs, ho, hp, hu, ha, ht, hpu, hw, hf, hpw⟩ := he
  refine ⟨?_, ?_, rfl, rfl, rfl, rfl, ⟨rfl, rfl, rfl, rfl⟩, ⟨rfl, rfl, rfl, rfl⟩⟩
  · show u8 (((e._OptionTrans &&& 0xFF) <<< 7) ||| ((e._OptionPullup &&& 0xFF) <<< 6) ||| ((e._OptionWakeup &&& 0xFF) <<< 3)
      ||| ((e._OptionFEC &&& 0xFF) <<< 2) ||| (u8 v &&& 0b11)) = _
    rw [ht, hpu, hw, hf]
    exact SetTransmitPower_byte v hv _ ho
  · show u8 v = v
    exact Nat.mod_eq_of_lt (by omega)

/-- C20. In the state `e` that `ReadParameters` returns, for every response:
a speed sub-field setter called with an in-width value (air rate < 8, parity
< 4, UART rate < 8) stores the value, replaces only that sub-field's bits of
the speed byte (for the air rate, new speed byte = (old & 0xF8) | v) and leaves
the other speed sub-fields, the options byte and its sub-fields, the channel
and the address bytes as they were; each option sub-field setter called with
an in-width value (transmission mode < 2, pullup < 2, wakeup < 8, FEC < 2, the
single bit the code gives it, power < 4) does the same on the options byte. -/
theorem C20_setter_frame (H : Header) (d e : Dev) (he : e = (ReadParameters H d).2) (v : Nat) :
    (v < 8 →
      (SetAirDataRate v e)._Speed = (e._Speed &&& 0xF8) ||| v ∧
      (SetAirDataRate v e)._AirDataRate = v ∧
      (SetAirDataRate v e)._ParityBit = e._ParityBit ∧
      (SetAirDataRate v e)._UARTDataRate = e._UARTDataRate ∧
      sameOptions (SetAirDataRate v e) e ∧
      sameAddress (SetAirDataRate v e) e) ∧
    (v < 4 →
      (SetParityBit v e)._Speed = (e._Speed &&& 0x3F) ||| (v <<< 6) ∧
      (SetParityBit v e)._ParityBit = v ∧
      (SetParityBit v e)._UARTDataRate = e._UARTDataRate ∧
      (SetParityBit v e)._AirDataRate = e._AirDataRate ∧
      sameOptions (SetParityBit v e) e ∧
      sameAddress (SetParityBit v e) e) ∧
    (v < 8 →
      (SetUARTBaudRate v e)._Speed = (e._Speed &&& 0xC7) ||| (v <<< 3) ∧
      (SetUARTBaudRate v e)._UARTDataRate = v ∧
      (SetUARTBaudRate v e)._ParityBit = e._ParityBit ∧
      (SetUARTBaudRate v e)._AirDataRate = e._AirDataRate ∧
      sameOptions (SetUARTBaudRate v e) e ∧
      sameAddress (SetUARTBaudRate v e) e) ∧
    (v < 2 →
      (SetTransmissionMode v e)._Options = (e._Options &&& 0x7F) ||| (v <<< 7) ∧
      (SetTransmissionMode v e)._OptionTrans = v ∧
      (SetTransmissionMode v e)._OptionPullup = e._OptionPullup ∧
      (SetTransmissionMode v e)._OptionWakeup = e._OptionWakeup ∧
      (SetTransmissionMode v e)._OptionFEC = e._OptionFEC ∧
      (SetTransmissionMode v e)._OptionPower = e._OptionPower ∧
      sameSpeed (SetTransmissionMode v e) e ∧
      sameAddress (SetTransmissionMode v e) e) ∧
    (v < 2 →
      (SetPullupMode v e)._Options = (e._Options &&& 0xBF) ||| (v <<< 6) ∧
      (SetPullupMode v e)._OptionPullup = v ∧
      (SetPullupMode v e)._OptionTrans = e._OptionTrans ∧
      (SetPullupMode v e)._OptionWakeup = e._OptionWakeup ∧
      (SetPullupMode v e)._OptionFEC = e._OptionFEC ∧
      (SetPullupMode v e)._OptionPower = e._OptionPower ∧
      sameSpeed (SetPullupMode v e) e ∧
      sameAddress (SetPullupMode v e) e) ∧
    (v < 8 →
      (SetWORTIming v e)._Options = (e._Options &&& 0xC7) ||| (v <<< 3) ∧
      (SetWORTIming v e)._OptionWakeup = v ∧
      (SetWORTIming v e)._OptionTrans = e._OptionTrans ∧
      (SetWORTIming v e)._OptionPullup = e._OptionPullup ∧
      (SetWORTIming v e)._OptionFEC = e._OptionFEC ∧
      (SetWORTIming v e)._OptionPower = e._OptionPower ∧
      sameSpeed (SetWORTIming v e) e ∧
      sameAddress (SetWORTIming v e) e) ∧
    (v < 2 →
      (SetFECMode v e)._Options = (e._Options &&& 0xFB) ||| (v <<< 2) ∧
      (SetFECMode v e)._OptionFEC = v ∧
      (SetFECMode v e)._OptionTrans = e._OptionTrans ∧
      (SetFECMode v e)._OptionPullup = e._OptionPullup ∧
      (SetFECMode v e)._OptionWakeup = e._OptionWakeup ∧
      (SetFECMode v e)._OptionPower = e._OptionPower ∧
      sameSpeed (SetFECMode v e) e ∧
      sameAddress (SetFECMode v e) e) ∧
    (v < 4 →
      (SetTransmitPower v e)._Options = (e._Options &&& 0xFC) ||| v ∧
      (SetTransmitPower v e)._OptionPower = v ∧
      (SetTransmitPower v e)._OptionTrans = e._OptionTrans ∧
      (SetTransmitPower v e)._OptionPullup = e._OptionPullup ∧
      (SetTransmitPower v e)._OptionWakeup = e._OptionWakeup ∧
      (SetTransmitPower v e)._OptionFEC = e._OptionFEC ∧
      sameSpeed (SetTransmitPower v e) e ∧
      sameAddress (SetTransmitPower v e) e) := by
  have hd : Decoded e := by
    rw [he]
    exact ReadParameters_Decoded H d
  exact ⟨fun hv => SetAirDataRate_decoded e hd v hv,
    fun hv => SetParityBit_decoded e hd v hv,
    fun hv => SetUARTBaudRate_decoded e hd v hv,
    fun hv => SetTransmissionMode_decoded e hd v hv,
    fun hv => SetPullupMode_decoded e hd v hv,
    fun hv => SetWORTIming_decoded e hd v hv,
    fun hv => SetFECMode_decoded e hd v hv,
    fun hv => SetTransmitPower_decoded e hd v hv⟩

/-- C20, evaluated after reading [0xC0, 0x00, 0x01, 0x1A, 0x17, 0x44]:
`SetAirDataRate(5)` turns the speed byte 0x1A into 0x1D and `SetFECMode(0)`
turns the options byte 0x44 into 0x40. -/
theorem C20_setter_frame_witness :
    (SetAirDataRate 5 (ReadParameters sampleHeader
      { idle with incoming := [0xC0, 0x00, 0x01, 0x1A, 0x17, 0x44] }).2)._Speed
      = ((ReadParameters sampleHeader
          { idle with incoming := [0xC0, 0x00, 0x01, 0x1A, 0x17, 0x44] }).2._Speed &&& 0xF8) ||| 5 ∧
    (SetAirDataRate 5 (ReadParameters sampleHeader
      { idle with incoming := [0xC0, 0x00, 0x01, 0x1A, 0x17, 0x44] }).2)._Speed = 0x1D ∧
    (SetFECMode 0 (ReadParameters sampleHeader
      { idle with incoming := [0xC0, 0x00, 0x01, 0x1A, 0x17, 0x44] }).2)._Options = 0x40 :=
  have h := C20_setter_frame sampleHeader
    { idle with incoming := [0xC0, 0x00, 0x01, 0x1A, 0x17, 0x44] } _ rfl 5
  ⟨(h.1 (by decide)).1, by decide, by decide⟩

/-! ## Order of the board calls -/

/-- States equal apart from their calls hold the same outbound log. -/
theorem sameButCalls_tx {a b : Dev} (h : sameButCalls a b) : a.tx = b.tx := by
  have h2 : ({ a with calls := [] } : Dev) = { b with calls := [] } := h
  have h3 := congrArg Dev.tx h2
  exact h3

end EBYTE
